import Mathlib

/-!
Verification of the easyTicket order / inventory / ticket-fulfillment engine.

The definitions below are a shallow embedding of the Python source:
`Tickets/models.py` (catalog and inventory units), `Orders/models.py`
(Order, OrderItem), `Orders/serializers.py` (purchase-line validation and
order creation), `Orders/signals.py` (inventory debit/credit and ticket
generation on status transitions), `Orders/payment_service.py` (fees and
refunds) and `Orders/webhooks.py` (Stripe webhook processing).

Monetary amounts (Decimal with two decimal places in the source) are
modelled as integer cents (`Int`).  Timestamps are modelled as `Int`.
Database rows are lists of records; the Django `F()`-expression updates
`quantity_sold = F(quantity_sold) + q` become pure updates of the
`quantitySold` field of the matching record.
-/

/-- The four pricing shapes of `TicketType.PRICING_TYPE_CHOICES`. -/
inductive PricingType
  | simple
  | tiered
  | dayBased
  | tierAndDay
deriving DecidableEq

/-- Order lifecycle states, `Order.STATUS_CHOICES`. -/
inductive OrderStatus
  | pending
  | processing
  | confirmed
  | cancelled
  | refunded
  | failed
deriving DecidableEq

/-- Ticket states, `Ticket.STATUS_CHOICES`. -/
inductive TicketStatus
  | active
  | used
  | cancelled
  | expired
deriving DecidableEq

/-- `Tickets.models.TicketType`: the sellable product.  `price` is nullable
(used only for the `simple` shape). -/
structure TicketType where
  id : Nat
  name : String
  pricingType : PricingType
  price : Option Int
  totalQuantity : Int
  quantitySold : Int
  salesStart : Option Int
  salesEnd : Option Int
  isActive : Bool
deriving DecidableEq

/-- `TicketType.available_quantity`: `max(0, total_quantity - quantity_sold)`. -/
def TicketType.availableQuantity (t : TicketType) : Int :=
  max 0 (t.totalQuantity - t.quantitySold)

/-- `TicketType.is_sold_out`. -/
def TicketType.isSoldOut (t : TicketType) : Bool :=
  t.availableQuantity == 0

/-- `TicketType.is_on_sale`: active, not sold out, inside the sale window. -/
def TicketType.isOnSale (now : Int) (t : TicketType) : Bool :=
  if ¬ t.isActive then false
  else if t.isSoldOut then false
  else if t.salesStart.any (fun s => now < s) then false
  else if t.salesEnd.any (fun e => now > e) then false
  else true

/-- `Tickets.models.TicketTier`: a priced tier under a ticket type. -/
structure TicketTier where
  id : Nat
  ticketTypeId : Nat
  tierNumber : Nat
  name : String
  price : Int
  quantity : Int
  quantitySold : Int
deriving DecidableEq

/-- `TicketTier.available_quantity`. -/
def TicketTier.availableQuantity (t : TicketTier) : Int :=
  max 0 (t.quantity - t.quantitySold)

/-- `Tickets.models.DayPass`: a priced day unit under a ticket type
(`day_number` is null for an all-days pass). -/
structure DayPass where
  id : Nat
  ticketTypeId : Nat
  dayNumber : Option Nat
  name : String
  price : Int
  quantity : Int
  quantitySold : Int
deriving DecidableEq

/-- `DayPass.available_quantity`. -/
def DayPass.availableQuantity (d : DayPass) : Int :=
  max 0 (d.quantity - d.quantitySold)

/-- `Tickets.models.DayTierPrice`: the day-and-tier matrix cell with its own
price, capacity and sold counter. -/
structure DayTierPrice where
  id : Nat
  ticketTypeId : Nat
  dayNumber : Nat
  dayName : String
  tierNumber : Nat
  tierName : String
  price : Int
  quantity : Int
  quantitySold : Int
  isActive : Bool
deriving DecidableEq

/-- `DayTierPrice.available_quantity`. -/
def DayTierPrice.availableQuantity (c : DayTierPrice) : Int :=
  max 0 (c.quantity - c.quantitySold)

/-- The pricing catalog: the rows of the four inventory-unit tables. -/
structure Catalog where
  ticketTypes : List TicketType
  tiers : List TicketTier
  dayPasses : List DayPass
  dayTierPrices : List DayTierPrice
deriving DecidableEq

/-- `Orders.models.Order` (the fields the core logic touches). -/
structure Order where
  id : Nat
  status : OrderStatus
  subtotal : Int
  serviceFee : Int
  discountAmount : Int
  totalAmount : Int
  paidAt : Option Int
  expiresAt : Option Int
  paymentId : Option String
  cancellationReason : String
deriving DecidableEq

/-- `Order.is_expired`: true only for a `pending` order with an elapsed
`expires_at`. -/
def Order.isExpired (now : Int) (o : Order) : Bool :=
  if o.status = OrderStatus.pending then
    match o.expiresAt with
    | some t => now > t
    | none => false
  else false

/-- `Orders.models.OrderItem`: one purchased line with frozen price, quantity
and name snapshots.  The signal handlers in `Orders/signals.py` branch on a
`day_tier_price` reference of the item, so it is carried here as an optional
field; the reservation serializer never sets it. -/
structure OrderItem where
  id : Nat
  orderId : Nat
  ticketTypeId : Nat
  ticketTierId : Option Nat
  dayPassId : Option Nat
  dayTierPriceId : Option Nat
  quantity : Nat
  unitPrice : Int
  subTotal : Int
  ticketName : String
  tierName : String
  dayName : String
deriving DecidableEq

/-- `Tickets.models.Ticket`: one redeemable ticket row (the fields the
fulfillment and cancellation logic touches). -/
structure Ticket where
  orderId : Nat
  orderItemId : Nat
  ticketTypeId : Nat
  ticketTierId : Option Nat
  dayPassId : Option Nat
  dayTierPriceId : Option Nat
  ticketName : String
  tierName : String
  dayName : String
  price : Int
  status : TicketStatus
deriving DecidableEq

/-- `Orders.models.WebhookEvent` rows are modelled by the list of processed
event ids; the whole mutable state of the engine around a single order. -/
structure World where
  processedEvents : List String
  order : Order
  items : List OrderItem
  catalog : Catalog
  tickets : List Ticket
deriving DecidableEq

/-- One line of a purchase request, `OrderItemCreateSerializer` input fields. -/
structure OrderItemRequest where
  ticketTypeId : Nat
  ticketTierId : Option Nat
  dayPassId : Option Nat
  quantity : Nat
deriving DecidableEq

/-- The validated data returned by `OrderItemCreateSerializer.validate`. -/
structure ValidatedItem where
  ticketType : TicketType
  tier : Option TicketTier
  dayPass : Option DayPass
  quantity : Nat
  unitPrice : Option Int
deriving DecidableEq

def errTicketTypeNotFound : String := "Ticket type not found"

def errNotOnSale : String := "Ticket is not currently on sale"

def errTypeAvailability : String := "Only N tickets available for this type"

def errNoTiersOrDayPasses : String := "This ticket type does not use tiers or day passes"

def errTierRequired : String := "Ticket tier is required for this ticket type"

def errNoDayPasses : String := "This ticket type does not use day passes"

def errInvalidTier : String := "Invalid ticket tier"

def errTierAvailability : String := "Only N tickets available for this tier"

def errDayPassRequired : String := "Day pass is required for this ticket type"

def errNoTiers : String := "This ticket type does not use tiers"

def errInvalidDayPass : String := "Invalid day pass"

def errDayAvailability : String := "Only N tickets available for this day"

def errBothRequired : String := "Both ticket tier and day pass are required for this ticket type"

def errInvalidPricingType : String := "Invalid pricing type"

/-- `TicketType.objects.get(id=...)`. -/
def Catalog.findTicketType (cat : Catalog) (pk : Nat) : Option TicketType :=
  cat.ticketTypes.find? (fun t => t.id == pk)

/-- `TicketTier.objects.get(id=..., ticket_type=ticket_type)`. -/
def Catalog.findTier (cat : Catalog) (ttId pk : Nat) : Option TicketTier :=
  cat.tiers.find? (fun t => t.id == pk && t.ticketTypeId == ttId)

/-- `DayPass.objects.get(id=..., ticket_type=ticket_type)`. -/
def Catalog.findDayPass (cat : Catalog) (ttId pk : Nat) : Option DayPass :=
  cat.dayPasses.find? (fun d => d.id == pk && d.ticketTypeId == ttId)

/-- The unique `DayTierPrice` cell of a ticket type for a (day, tier) pair. -/
def Catalog.findDayTierCell (cat : Catalog) (ttId dayNo tierNo : Nat) : Option DayTierPrice :=
  cat.dayTierPrices.find?
    (fun c => c.ticketTypeId == ttId && c.dayNumber == dayNo && c.tierNumber == tierNo)

/-- The pricing-shape branch of `OrderItemCreateSerializer.validate`
(`Orders/serializers.py`): resolves the unit price and the selected child
units, rejecting illegal selector combinations, unknown child ids and
quantities beyond a child unit's availability.  In the `tier_and_day` branch
the source computes `unit_price = tier.price + day_pass.price`. -/
def validateShape (cat : Catalog) (req : OrderItemRequest) (tt : TicketType) :
    Except String ValidatedItem :=
    match tt.pricingType with
    | PricingType.simple =>
      if req.ticketTierId.isSome || req.dayPassId.isSome then
        Except.error errNoTiersOrDayPasses
      else
        Except.ok { ticketType := tt, tier := none, dayPass := none,
                    quantity := req.quantity, unitPrice := tt.price }
    | PricingType.tiered =>
      match req.ticketTierId with
      | none => Except.error errTierRequired
      | some trId =>
        if req.dayPassId.isSome then Except.error errNoDayPasses
        else
          match cat.findTier tt.id trId with
          | none => Except.error errInvalidTier
          | some tier =>
            if (req.quantity : Int) > tier.availableQuantity then
              Except.error errTierAvailability
            else
              Except.ok { ticketType := tt, tier := some tier, dayPass := none,
                          quantity := req.quantity, unitPrice := some tier.price }
    | PricingType.dayBased =>
      match req.dayPassId with
      | none => Except.error errDayPassRequired
      | some dpId =>
        if req.ticketTierId.isSome then Except.error errNoTiers
        else
          match cat.findDayPass tt.id dpId with
          | none => Except.error errInvalidDayPass
          | some dp =>
            if (req.quantity : Int) > dp.availableQuantity then
              Except.error errDayAvailability
            else
              Except.ok { ticketType := tt, tier := none, dayPass := some dp,
                          quantity := req.quantity, unitPrice := some dp.price }
    | PricingType.tierAndDay =>
      match req.ticketTierId, req.dayPassId with
      | none, _ => Except.error errBothRequired
      | _, none => Except.error errBothRequired
      | some trId, some dpId =>
        match cat.findTier tt.id trId with
        | none => Except.error errInvalidTier
        | some tier =>
          match cat.findDayPass tt.id dpId with
          | none => Except.error errInvalidDayPass
          | some dp =>
            if (req.quantity : Int) > tier.availableQuantity then
              Except.error errTierAvailability
            else if (req.quantity : Int) > dp.availableQuantity then
              Except.error errDayAvailability
            else
              Except.ok { ticketType := tt, tier := some tier, dayPass := some dp,
                          quantity := req.quantity,
                          unitPrice := some (tier.price + dp.price) }

/-- `OrderItemCreateSerializer.validate` (`Orders/serializers.py`): looks the
ticket type up under a row lock, checks the sale window and availability, then
branches on the pricing shape (`validateShape`) to resolve the unit price and
the selected child units. -/
def validateOrderItem (now : Int) (cat : Catalog) (req : OrderItemRequest) :
    Except String ValidatedItem :=
  match cat.findTicketType req.ticketTypeId with
  | none => Except.error errTicketTypeNotFound
  | some tt =>
    if ¬ tt.isOnSale now then Except.error errNotOnSale
    else if (req.quantity : Int) > tt.availableQuantity then Except.error errTypeAvailability
    else validateShape cat req tt

/-- Rounding of `n / d` to the nearest integer with ties to even: the
behaviour of Python `Decimal.quantize` under the default `ROUND_HALF_EVEN`
context used by `calculate_service_fee`. -/
def roundHalfEvenDiv (n d : Nat) : Nat :=
  let q := n / d
  let r := n % d
  if 2 * r < d then q
  else if d < 2 * r then q + 1
  else if q % 2 = 0 then q else q + 1

/-- Rounding of `n / d` to the nearest integer with ties away from zero
(round-half-up), the rounding mode the specification describes. -/
def roundHalfUpDiv (n d : Nat) : Nat :=
  let q := n / d
  let r := n % d
  if d ≤ 2 * r then q + 1 else q

/-- `StripePaymentService.calculate_service_fee`: the configured percentage
of the subtotal, quantized to a cent.  `feePct` is the integer percentage
(`STRIPE_SERVICE_FEE_PERCENTAGE`, default 5); `subtotal` is in cents. -/
def calculateServiceFee (feePct subtotal : Nat) : Nat :=
  roundHalfEvenDiv (subtotal * feePct) 100

/-- `StripePaymentService.calculate_total_amount`:
`max(0, subtotal + fee - discount)`. -/
def calculateTotalAmount (feePct : Nat) (subtotal discount : Int) : Int :=
  max 0 (subtotal + (calculateServiceFee feePct subtotal.toNat : Int) - discount)

/-- `Order.calculate_totals` (`Orders/models.py`): recomputes the subtotal
from the items, the service fee, and `total = subtotal + fee - discount`
(no flooring at zero in this method). -/
def orderCalculateTotals (feePct : Nat) (items : List OrderItem) (o : Order) : Order :=
  let sub := (items.map (fun it => it.subTotal)).sum
  let fee : Int := calculateServiceFee feePct sub.toNat
  { o with subtotal := sub, serviceFee := fee,
           totalAmount := sub + fee - o.discountAmount }

/-- `OrderItem` creation in `OrderCreateSerializer.create` followed by
`OrderItem.save`: the unit price and quantity come from the validated line,
`subtotal = quantity * unit_price`, and the name snapshots are copied from
the catalog rows the line resolved to. -/
def mkOrderItem (orderId itemId : Nat) (v : ValidatedItem) : OrderItem :=
  let up := v.unitPrice.getD 0
  { id := itemId, orderId := orderId,
    ticketTypeId := v.ticketType.id,
    ticketTierId := v.tier.map (fun t => t.id),
    dayPassId := v.dayPass.map (fun d => d.id),
    dayTierPriceId := none,
    quantity := v.quantity,
    unitPrice := up,
    subTotal := (v.quantity : Int) * up,
    ticketName := v.ticketType.name,
    tierName := (v.tier.map (fun t => t.name)).getD "",
    dayName := (v.dayPass.map (fun d => d.name)).getD "" }

/-- `OrderCreateSerializer.create` with `Order.save`: validates every line,
sums the subtotal, persists a `pending` order with `expires_at = now + 30
minutes`, creates one frozen `OrderItem` per line and recomputes the totals.
Any line failing validation aborts the whole creation. -/
def createOrder (now : Int) (feePct : Nat) (cat : Catalog) (orderId : Nat)
    (reqs : List OrderItemRequest) : Except String (Order × List OrderItem) := do
  let vs ← reqs.mapM (validateOrderItem now cat)
  let items := (List.range vs.length).zip vs |>.map
    (fun p => mkOrderItem orderId p.1 p.2)
  let order : Order :=
    { id := orderId, status := OrderStatus.pending,
      subtotal := (items.map (fun it => it.subTotal)).sum,
      serviceFee := 0, discountAmount := 0,
      totalAmount := (items.map (fun it => it.subTotal)).sum,
      paidAt := none, expiresAt := some (now + 30 * 60),
      paymentId := none, cancellationReason := "" }
  Except.ok (orderCalculateTotals feePct items order, items)

/-- `TicketType.objects.filter(pk=...).update(quantity_sold=F(...) + delta)`:
an atomic column-level adjustment of the matching rows. -/
def adjustSoldTicketType (delta : Int) (pk : Nat) : List TicketType → List TicketType
  | [] => []
  | t :: rest =>
    (if t.id = pk then { t with quantitySold := t.quantitySold + delta } else t)
      :: adjustSoldTicketType delta pk rest

/-- The same atomic adjustment on `TicketTier` rows. -/
def adjustSoldTier (delta : Int) (pk : Nat) : List TicketTier → List TicketTier
  | [] => []
  | t :: rest =>
    (if t.id = pk then { t with quantitySold := t.quantitySold + delta } else t)
      :: adjustSoldTier delta pk rest

/-- The same atomic adjustment on `DayPass` rows. -/
def adjustSoldDayPass (delta : Int) (pk : Nat) : List DayPass → List DayPass
  | [] => []
  | d :: rest =>
    (if d.id = pk then { d with quantitySold := d.quantitySold + delta } else d)
      :: adjustSoldDayPass delta pk rest

/-- The same atomic adjustment on `DayTierPrice` rows. -/
def adjustSoldDayTierPrice (delta : Int) (pk : Nat) : List DayTierPrice → List DayTierPrice
  | [] => []
  | c :: rest =>
    (if c.id = pk then { c with quantitySold := c.quantitySold + delta } else c)
      :: adjustSoldDayTierPrice delta pk rest

/-- The per-item inventory adjustment of `Orders/signals.py`: the sold
counter of the item's ticket type moves by `sign * quantity`; then, if the
item carries a `day_tier_price`, that cell moves, otherwise the item's tier
and day pass (when present) move.  The debit block (confirmation) is this
with `sign = 1`, and the two textually identical credit blocks
(cancellation/refund and deletion) are this with `sign = -1`. -/
def applyItemAdjust (sign : Int) (it : OrderItem) (cat : Catalog) : Catalog :=
  let delta := sign * (it.quantity : Int)
  let cat1 := { cat with ticketTypes := adjustSoldTicketType delta it.ticketTypeId cat.ticketTypes }
  match it.dayTierPriceId with
  | some dtp =>
    { cat1 with dayTierPrices := adjustSoldDayTierPrice delta dtp cat1.dayTierPrices }
  | none =>
    let cat2 :=
      match it.ticketTierId with
      | some tr => { cat1 with tiers := adjustSoldTier delta tr cat1.tiers }
      | none => cat1
    match it.dayPassId with
    | some dp => { cat2 with dayPasses := adjustSoldDayPass delta dp cat2.dayPasses }
    | none => cat2

/-- The inventory debit run when an order is confirmed. -/
def inventoryDebit (items : List OrderItem) (cat : Catalog) : Catalog :=
  items.foldl (fun c it => applyItemAdjust 1 it c) cat

/-- The inventory credit run when a confirmed order is cancelled, refunded
or deleted (note: a plain subtraction, with no clamping at zero). -/
def inventoryCredit (items : List OrderItem) (cat : Catalog) : Catalog :=
  items.foldl (fun c it => applyItemAdjust (-1) it c) cat

/-- Ticket generation for one item on confirmation: one `active` `Ticket`
row per unit of quantity, snapshotting names and the frozen unit price. -/
def generateTicketsForItem (orderId : Nat) (it : OrderItem) : List Ticket :=
  List.replicate it.quantity
    { orderId := orderId, orderItemId := it.id,
      ticketTypeId := it.ticketTypeId,
      ticketTierId := it.ticketTierId,
      dayPassId := it.dayPassId,
      dayTierPriceId := it.dayTierPriceId,
      ticketName := it.ticketName, tierName := it.tierName, dayName := it.dayName,
      price := it.unitPrice, status := TicketStatus.active }

/-- All tickets generated for an order on confirmation. -/
def generateTickets (orderId : Nat) (items : List OrderItem) : List Ticket :=
  (items.map (generateTicketsForItem orderId)).flatten

/-- `Ticket.objects.filter(order_item__order=instance, status="active")
.update(status="cancelled")`. -/
def cancelOrderTickets (orderId : Nat) (tickets : List Ticket) : List Ticket :=
  tickets.map (fun tk =>
    if tk.orderId == orderId && tk.status == TicketStatus.active then
      { tk with status := TicketStatus.cancelled }
    else tk)

/-- The `post_save` receiver `update_ticket_inventory_on_order_save`
(`Orders/signals.py`): skips creations and saves without a status change;
debits inventory and generates tickets when the status changes into
`confirmed`; credits inventory and cancels the order's active tickets when
the status changes from `confirmed` to `cancelled`/`refunded`. -/
def updateTicketInventoryOnOrderSave (created : Bool) (oldStatus : Option OrderStatus)
    (order : Order) (items : List OrderItem) (w : World) : World :=
  if created then w
  else if oldStatus = some order.status then w
  else if oldStatus ≠ some OrderStatus.confirmed ∧ order.status = OrderStatus.confirmed then
    { w with catalog := inventoryDebit items w.catalog,
             tickets := w.tickets ++ generateTickets order.id items }
  else if oldStatus = some OrderStatus.confirmed ∧
      (order.status = OrderStatus.cancelled ∨ order.status = OrderStatus.refunded) then
    { w with catalog := inventoryCredit items w.catalog,
             tickets := cancelOrderTickets order.id w.tickets }
  else w

/-- The `pre_delete` receiver `restore_inventory_on_order_delete`: credits
inventory back if a confirmed order is deleted. -/
def restoreInventoryOnOrderDelete (order : Order) (items : List OrderItem)
    (cat : Catalog) : Catalog :=
  if order.status = OrderStatus.confirmed then inventoryCredit items cat else cat

/-- Saving an existing order: the `pre_save` receiver records the status
currently in the database, the row is written, then the `post_save`
receiver runs on the transition. -/
def saveOrder (w : World) (newOrder : Order) : World :=
  let oldStatus := w.order.status
  updateTicketInventoryOnOrderSave false (some oldStatus) newOrder w.items
    { w with order := newOrder }

/-- `Order.confirm_payment` / the webhook confirmation write: set the status
to `confirmed`, record `paid_at` and the gateway payment id, and save. -/
def confirmPayment (now : Int) (paymentIntentId : String) (w : World) : World :=
  saveOrder w { w.order with status := OrderStatus.confirmed,
                             paidAt := some now,
                             paymentId := some paymentIntentId }

/-- `StripePaymentService.create_refund`: requires a stored payment id and a
`confirmed` order, performs the gateway refund (modelled as succeeding) and
then flips the status to `refunded` via a save. -/
def createRefund (w : World) : Option World :=
  if w.order.paymentId = none then none
  else if w.order.status ≠ OrderStatus.confirmed then none
  else some (saveOrder w { w.order with status := OrderStatus.refunded })

/-- A verified Stripe event envelope as the webhook handlers consume it. -/
structure StripeEvent where
  id : String
  eventType : String
  orderIdMeta : Option Nat
  paymentIntentId : String
deriving DecidableEq

def evtPaymentSucceeded : String := "payment_intent.succeeded"

def evtPaymentFailed : String := "payment_intent.payment_failed"

def evtChargeRefunded : String := "charge.refunded"

def evtPaymentCanceled : String := "payment_intent.canceled"

/-- `handle_payment_succeeded` (`Orders/webhooks.py`): resolve the order from
the intent metadata; if it is expired, refund at the gateway and mark it
`refunded`; otherwise confirm it (recording `paid_at` and the payment id)
unless it is already `confirmed`.  Returns the new state and the HTTP
status. -/
def handlePaymentSucceeded (now : Int) (ev : StripeEvent) (w : World) : World × Nat :=
  match ev.orderIdMeta with
  | none => (w, 400)
  | some oid =>
    if w.order.id ≠ oid then (w, 404)
    else if w.order.isExpired now then
      let reason := "Order expired before payment was completed"
      let o := { w.order with status := OrderStatus.refunded, cancellationReason := reason }
      (saveOrder w o, 200)
    else if w.order.status ≠ OrderStatus.confirmed then
      (confirmPayment now ev.paymentIntentId w, 200)
    else (w, 200)

/-- `handle_payment_failed`: mark the order `failed`. -/
def handlePaymentFailed (ev : StripeEvent) (w : World) : World × Nat :=
  match ev.orderIdMeta with
  | none => (w, 400)
  | some oid =>
    if w.order.id ≠ oid then (w, 404)
    else (saveOrder w { w.order with status := OrderStatus.failed }, 200)

/-- `handle_refund`: look the order up by its payment id and mark it
`refunded`. -/
def handleRefund (ev : StripeEvent) (w : World) : World × Nat :=
  if w.order.paymentId = some ev.paymentIntentId then
    (saveOrder w { w.order with status := OrderStatus.refunded }, 200)
  else (w, 200)

/-- `handle_payment_canceled`: a `processing` order becomes `cancelled`. -/
def handlePaymentCanceled (ev : StripeEvent) (w : World) : World × Nat :=
  match ev.orderIdMeta with
  | none => (w, 200)
  | some oid =>
    if w.order.id ≠ oid then (w, 200)
    else if w.order.status = OrderStatus.processing then
      (saveOrder w { w.order with status := OrderStatus.cancelled }, 200)
    else (w, 200)

/-- `stripe_webhook` after signature verification: if a `WebhookEvent` row
already exists for this event id, return success immediately; otherwise
record the id and dispatch on the event type (unknown types are
acknowledged). -/
def stripeWebhook (now : Int) (ev : StripeEvent) (w : World) : World × Nat :=
  if w.processedEvents.contains ev.id then (w, 200)
  else
    let w1 := { w with processedEvents := ev.id :: w.processedEvents }
    if ev.eventType = evtPaymentSucceeded then handlePaymentSucceeded now ev w1
    else if ev.eventType = evtPaymentFailed then handlePaymentFailed ev w1
    else if ev.eventType = evtChargeRefunded then handleRefund ev w1
    else if ev.eventType = evtPaymentCanceled then handlePaymentCanceled ev w1
    else (w1, 200)

/-- The world after processing a webhook event (the state component of
`stripeWebhook`). -/
def webhookStep (now : Int) (ev : StripeEvent) (w : World) : World :=
  (stripeWebhook now ev w).1

/-- An admin edit of a `TicketTier` price: only the catalog row changes. -/
def updateTierPrice (pk : Nat) (newPrice : Int) (cat : Catalog) : Catalog :=
  let newTiers := cat.tiers.map (fun t => if t.id == pk then { t with price := newPrice } else t)
  { cat with tiers := newTiers }

/-- A tier-price edit lifted to the whole state: order rows are untouched. -/
def worldUpdateTierPrice (pk : Nat) (newPrice : Int) (w : World) : World :=
  { w with catalog := updateTierPrice pk newPrice w.catalog }

/-- The sold counter of the ticket-type row with primary key `pk` (0 when no
such row exists). -/
def soldTicketType : List TicketType → Nat → Int
  | [], _ => 0
  | t :: rest, pk => if t.id = pk then t.quantitySold else soldTicketType rest pk

/-- Whether a ticket-type row with primary key `pk` exists. -/
def hasTicketType : List TicketType → Nat → Bool
  | [], _ => false
  | t :: rest, pk => if t.id = pk then true else hasTicketType rest pk

/-- The sold counter of the tier row with primary key `pk`. -/
def soldTier : List TicketTier → Nat → Int
  | [], _ => 0
  | t :: rest, pk => if t.id = pk then t.quantitySold else soldTier rest pk

/-- Whether a tier row with primary key `pk` exists. -/
def hasTier : List TicketTier → Nat → Bool
  | [], _ => false
  | t :: rest, pk => if t.id = pk then true else hasTier rest pk

/-- The price of the tier row with primary key `pk`. -/
def tierPrice : List TicketTier → Nat → Option Int
  | [], _ => none
  | t :: rest, pk => if t.id = pk then some t.price else tierPrice rest pk

/-- The sold counter of the day-pass row with primary key `pk`. -/
def soldDayPass : List DayPass → Nat → Int
  | [], _ => 0
  | d :: rest, pk => if d.id = pk then d.quantitySold else soldDayPass rest pk

/-- Whether a day-pass row with primary key `pk` exists. -/
def hasDayPass : List DayPass → Nat → Bool
  | [], _ => false
  | d :: rest, pk => if d.id = pk then true else hasDayPass rest pk

/-- The sold counter of the day-tier-cell row with primary key `pk`. -/
def soldDayTierPrice : List DayTierPrice → Nat → Int
  | [], _ => 0
  | c :: rest, pk => if c.id = pk then c.quantitySold else soldDayTierPrice rest pk

/-- Whether a day-tier-cell row with primary key `pk` exists. -/
def hasDayTierPrice : List DayTierPrice → Nat → Bool
  | [], _ => false
  | c :: rest, pk => if c.id = pk then true else hasDayTierPrice rest pk

/-- Total quantity of the order items that debit the ticket-type row `pk`
(every item debits its ticket type). -/
def ttQty : List OrderItem → Nat → Int
  | [], _ => 0
  | it :: rest, pk =>
    (if it.ticketTypeId = pk then (it.quantity : Int) else 0) + ttQty rest pk

/-- Total quantity of the order items that debit the tier row `pk`
(items without a day-tier cell whose tier is `pk`). -/
def tierQty : List OrderItem → Nat → Int
  | [], _ => 0
  | it :: rest, pk =>
    (if it.dayTierPriceId = none ∧ it.ticketTierId = some pk then (it.quantity : Int) else 0)
      + tierQty rest pk

/-- Total quantity of the order items that debit the day-pass row `pk`. -/
def dayQty : List OrderItem → Nat → Int
  | [], _ => 0
  | it :: rest, pk =>
    (if it.dayTierPriceId = none ∧ it.dayPassId = some pk then (it.quantity : Int) else 0)
      + dayQty rest pk

/-- Total quantity of the order items that debit the day-tier-cell row `pk`. -/
def cellQty : List OrderItem → Nat → Int
  | [], _ => 0
  | it :: rest, pk =>
    (if it.dayTierPriceId = some pk then (it.quantity : Int) else 0) + cellQty rest pk




/-- The purchase line is rejected by the validator with some validation
error message. -/
def rejects (now : Int) (cat : Catalog) (req : OrderItemRequest) : Prop :=
  ∃ msg, validateOrderItem now cat req = Except.error msg

/-- A concrete tier of the tiered sample type (price 40.00, capacity 10). -/
def goldTier : TicketTier :=
  { id := 12, ticketTypeId := 3, tierNumber := 1, name := "Gold", price := 4000,
    quantity := 10, quantitySold := 0 }

/-- A concrete VIP tier of the matrix sample type (price 100.00). -/
def vipTier : TicketTier :=
  { id := 11, ticketTypeId := 1, tierNumber := 1, name := "VIP", price := 10000,
    quantity := 50, quantitySold := 0 }

/-- A concrete day pass of the matrix sample type (price 50.00). -/
def day1Pass : DayPass :=
  { id := 21, ticketTypeId := 1, dayNumber := some 1, name := "Day 1", price := 5000,
    quantity := 40, quantitySold := 0 }

/-- A concrete day pass of the day-based sample type (price 30.00). -/
def day4Pass : DayPass :=
  { id := 22, ticketTypeId := 4, dayNumber := some 1, name := "Day 1", price := 3000,
    quantity := 25, quantitySold := 0 }

/-- The matrix cell for (Day 1, VIP) with its own price 120.00, which is not
the 150.00 sum of the tier and day-pass prices. -/
def day1VipCell : DayTierPrice :=
  { id := 31, ticketTypeId := 1, dayNumber := 1, dayName := "Day 1", tierNumber := 1,
    tierName := "VIP", price := 12000, quantity := 30, quantitySold := 0, isActive := true }

/-- A `tier_and_day` ticket type. -/
def comboType : TicketType :=
  { id := 1, name := "Festival", pricingType := PricingType.tierAndDay, price := none,
    totalQuantity := 100, quantitySold := 0, salesStart := none, salesEnd := none,
    isActive := true }

/-- A `simple` ticket type priced 25.00. -/
def simpleType : TicketType :=
  { id := 2, name := "GA", pricingType := PricingType.simple, price := some 2500,
    totalQuantity := 200, quantitySold := 0, salesStart := none, salesEnd := none,
    isActive := true }

/-- A `tiered` ticket type. -/
def tieredType : TicketType :=
  { id := 3, name := "Concert", pricingType := PricingType.tiered, price := none,
    totalQuantity := 100, quantitySold := 0, salesStart := none, salesEnd := none,
    isActive := true }

/-- A `day_based` ticket type. -/
def dayType : TicketType :=
  { id := 4, name := "Expo", pricingType := PricingType.dayBased, price := none,
    totalQuantity := 100, quantitySold := 0, salesStart := none, salesEnd := none,
    isActive := true }

/-- A sample catalog holding all four pricing shapes. -/
def sampleCatalog : Catalog :=
  { ticketTypes := [comboType, simpleType, tieredType, dayType],
    tiers := [vipTier, goldTier],
    dayPasses := [day1Pass, day4Pass],
    dayTierPrices := [day1VipCell] }

/-- A sample pending order (expires at time 1000). -/
def sampleOrder : Order :=
  { id := 7, status := OrderStatus.pending, subtotal := 8000, serviceFee := 400,
    discountAmount := 0, totalAmount := 8400, paidAt := none, expiresAt := some 1000,
    paymentId := none, cancellationReason := "" }

/-- A sample order item: two Gold-tier tickets of the tiered type. -/
def sampleItem : OrderItem :=
  { id := 70, orderId := 7, ticketTypeId := 3, ticketTierId := some 12, dayPassId := none,
    dayTierPriceId := none, quantity := 2, unitPrice := 4000, subTotal := 8000,
    ticketName := "Concert", tierName := "Gold", dayName := "" }

/-- A sample world: one pending order over the sample catalog, no processed
events, no tickets. -/
def sampleWorld : World :=
  { processedEvents := [], order := sampleOrder, items := [sampleItem],
    catalog := sampleCatalog, tickets := [] }

/-- A sample payment-succeeded event for the sample order. -/
def sampleEvent : StripeEvent :=
  { id := "evt_1", eventType := "payment_intent.succeeded", orderIdMeta := some 7,
    paymentIntentId := "pi_1" }

/-- The sample world with the order in `processing` and `expires_at` already
in the past at time 2000. -/
def expiredProcessingWorld : World :=
  { sampleWorld with order := { sampleOrder with status := OrderStatus.processing,
                                                 paymentId := some "pi_1" } }

/-- The sample world with the order already `confirmed` and the ticket-type
counter at zero, as an admin edit can leave it. -/
def confirmedZeroSoldWorld : World :=
  { sampleWorld with order := { sampleOrder with status := OrderStatus.confirmed,
                                                 paymentId := some "pi_1" } }

theorem soldTicketType_adjust (δ : Int) (pk' pk : Nat) (l : List TicketType) :
    soldTicketType (adjustSoldTicketType δ pk' l) pk
      = soldTicketType l pk + (if pk' = pk ∧ hasTicketType l pk = true then δ else 0) := by
  induction l with
  | nil => simp [soldTicketType, adjustSoldTicketType, hasTicketType]
  | cons t rest ih =>
    by_cases h1 : t.id = pk'
    · by_cases h2 : t.id = pk
      · have h12 : pk' = pk := h1.symm.trans h2
        simp [soldTicketType, adjustSoldTicketType, hasTicketType, h1, h2, h12]
      · have h12 : ¬ pk' = pk := fun h => h2 (h1.trans h)
        have h21 : ¬ pk = pk' := fun h => h12 h.symm
        simp [soldTicketType, adjustSoldTicketType, hasTicketType, h1, h2, h12, h21, ih]
    · by_cases h2 : t.id = pk
      · have h12 : ¬ pk' = pk := fun h => h1 (h2.trans h.symm)
        have h21 : ¬ pk = pk' := fun h => h12 h.symm
        simp [soldTicketType, adjustSoldTicketType, hasTicketType, h1, h2, h12, h21]
      · simp [soldTicketType, adjustSoldTicketType, hasTicketType, h1, h2, ih]

theorem hasTicketType_adjust (δ : Int) (pk' pk : Nat) (l : List TicketType) :
    hasTicketType (adjustSoldTicketType δ pk' l) pk = hasTicketType l pk := by
  induction l with
  | nil => simp [adjustSoldTicketType]
  | cons t rest ih =>
    by_cases h1 : t.id = pk'
    · by_cases h2 : t.id = pk
      · have h12 : pk' = pk := h1.symm.trans h2
        simp [hasTicketType, adjustSoldTicketType, h1, h2, h12]
      · have h21 : ¬ pk = pk' := fun h => h2 (h1.trans h.symm)
        simp [hasTicketType, adjustSoldTicketType, h1, h2, h21, ih]
    · by_cases h2 : t.id = pk
      · have h21 : ¬ pk = pk' := fun h => h1 (h2.trans h)
        simp [hasTicketType, adjustSoldTicketType, h1, h2, h21]
      · simp [hasTicketType, adjustSoldTicketType, h1, h2, ih]

theorem soldTier_adjust (δ : Int) (pk' pk : Nat) (l : List TicketTier) :
    soldTier (adjustSoldTier δ pk' l) pk
      = soldTier l pk + (if pk' = pk ∧ hasTier l pk = true then δ else 0) := by
  induction l with
  | nil => simp [soldTier, adjustSoldTier, hasTier]
  | cons t rest ih =>
    by_cases h1 : t.id = pk'
    · by_cases h2 : t.id = pk
      · have h12 : pk' = pk := h1.symm.trans h2
        simp [soldTier, adjustSoldTier, hasTier, h1, h2, h12]
      · have h12 : ¬ pk' = pk := fun h => h2 (h1.trans h)
        have h21 : ¬ pk = pk' := fun h => h12 h.symm
        simp [soldTier, adjustSoldTier, hasTier, h1, h2, h12, h21, ih]
    · by_cases h2 : t.id = pk
      · have h12 : ¬ pk' = pk := fun h => h1 (h2.trans h.symm)
        have h21 : ¬ pk = pk' := fun h => h12 h.symm
        simp [soldTier, adjustSoldTier, hasTier, h1, h2, h12, h21]
      · simp [soldTier, adjustSoldTier, hasTier, h1, h2, ih]

theorem hasTier_adjust (δ : Int) (pk' pk : Nat) (l : List TicketTier) :
    hasTier (adjustSoldTier δ pk' l) pk = hasTier l pk := by
  induction l with
  | nil => simp [adjustSoldTier]
  | cons t rest ih =>
    by_cases h1 : t.id = pk'
    · by_cases h2 : t.id = pk
      · have h12 : pk' = pk := h1.symm.trans h2
        simp [hasTier, adjustSoldTier, h1, h2, h12]
      · have h21 : ¬ pk = pk' := fun h => h2 (h1.trans h.symm)
        simp [hasTier, adjustSoldTier, h1, h2, h21, ih]
    · by_cases h2 : t.id = pk
      · have h21 : ¬ pk = pk' := fun h => h1 (h2.trans h)
        simp [hasTier, adjustSoldTier, h1, h2, h21]
      · simp [hasTier, adjustSoldTier, h1, h2, ih]

theorem soldDayPass_adjust (δ : Int) (pk' pk : Nat) (l : List DayPass) :
    soldDayPass (adjustSoldDayPass δ pk' l) pk
      = soldDayPass l pk + (if pk' = pk ∧ hasDayPass l pk = true then δ else 0) := by
  induction l with
  | nil => simp [soldDayPass, adjustSoldDayPass, hasDayPass]
  | cons t rest ih =>
    by_cases h1 : t.id = pk'
    · by_cases h2 : t.id = pk
      · have h12 : pk' = pk := h1.symm.trans h2
        simp [soldDayPass, adjustSoldDayPass, hasDayPass, h1, h2, h12]
      · have h12 : ¬ pk' = pk := fun h => h2 (h1.trans h)
        have h21 : ¬ pk = pk' := fun h => h12 h.symm
        simp [soldDayPass, adjustSoldDayPass, hasDayPass, h1, h2, h12, h21, ih]
    · by_cases h2 : t.id = pk
      · have h12 : ¬ pk' = pk := fun h => h1 (h2.trans h.symm)
        have h21 : ¬ pk = pk' := fun h => h12 h.symm
        simp [soldDayPass, adjustSoldDayPass, hasDayPass, h1, h2, h12, h21]
      · simp [soldDayPass, adjustSoldDayPass, hasDayPass, h1, h2, ih]

theorem hasDayPass_adjust (δ : Int) (pk' pk : Nat) (l : List DayPass) :
    hasDayPass (adjustSoldDayPass δ pk' l) pk = hasDayPass l pk := by
  induction l with
  | nil => simp [adjustSoldDayPass]
  | cons t rest ih =>
    by_cases h1 : t.id = pk'
    · by_cases h2 : t.id = pk
      · have h12 : pk' = pk := h1.symm.trans h2
        simp [hasDayPass, adjustSoldDayPass, h1, h2, h12]
      · have h21 : ¬ pk = pk' := fun h => h2 (h1.trans h.symm)
        simp [hasDayPass, adjustSoldDayPass, h1, h2, h21, ih]
    · by_cases h2 : t.id = pk
      · have h21 : ¬ pk = pk' := fun h => h1 (h2.trans h)
        simp [hasDayPass, adjustSoldDayPass, h1, h2, h21]
      · simp [hasDayPass, adjustSoldDayPass, h1, h2, ih]

theorem soldDayTierPrice_adjust (δ : Int) (pk' pk : Nat) (l : List DayTierPrice) :
    soldDayTierPrice (adjustSoldDayTierPrice δ pk' l) pk
      = soldDayTierPrice l pk + (if pk' = pk ∧ hasDayTierPrice l pk = true then δ else 0) := by
  induction l with
  | nil => simp [soldDayTierPrice, adjustSoldDayTierPrice, hasDayTierPrice]
  | cons t rest ih =>
    by_cases h1 : t.id = pk'
    · by_cases h2 : t.id = pk
      · have h12 : pk' = pk := h1.symm.trans h2
        simp [soldDayTierPrice, adjustSoldDayTierPrice, hasDayTierPrice, h1, h2, h12]
      · have h12 : ¬ pk' = pk := fun h => h2 (h1.trans h)
        have h21 : ¬ pk = pk' := fun h => h12 h.symm
        simp [soldDayTierPrice, adjustSoldDayTierPrice, hasDayTierPrice, h1, h2, h12, h21, ih]
    · by_cases h2 : t.id = pk
      · have h12 : ¬ pk' = pk := fun h => h1 (h2.trans h.symm)
        have h21 : ¬ pk = pk' := fun h => h12 h.symm
        simp [soldDayTierPrice, adjustSoldDayTierPrice, hasDayTierPrice, h1, h2, h12, h21]
      · simp [soldDayTierPrice, adjustSoldDayTierPrice, hasDayTierPrice, h1, h2, ih]

theorem hasDayTierPrice_adjust (δ : Int) (pk' pk : Nat) (l : List DayTierPrice) :
    hasDayTierPrice (adjustSoldDayTierPrice δ pk' l) pk = hasDayTierPrice l pk := by
  induction l with
  | nil => simp [adjustSoldDayTierPrice]
  | cons t rest ih =>
    by_cases h1 : t.id = pk'
    · by_cases h2 : t.id = pk
      · have h12 : pk' = pk := h1.symm.trans h2
        simp [hasDayTierPrice, adjustSoldDayTierPrice, h1, h2, h12]
      · have h21 : ¬ pk = pk' := fun h => h2 (h1.trans h.symm)
        simp [hasDayTierPrice, adjustSoldDayTierPrice, h1, h2, h21, ih]
    · by_cases h2 : t.id = pk
      · have h21 : ¬ pk = pk' := fun h => h1 (h2.trans h)
        simp [hasDayTierPrice, adjustSoldDayTierPrice, h1, h2, h21]
      · simp [hasDayTierPrice, adjustSoldDayTierPrice, h1, h2, ih]

/-- Folding the per-item adjustment over all items of an order. -/
def inventoryAdjust (s : Int) (items : List OrderItem) (cat : Catalog) : Catalog :=
  items.foldl (fun c it => applyItemAdjust s it c) cat

theorem inventoryDebit_eq_adjust (items : List OrderItem) (cat : Catalog) :
    inventoryDebit items cat = inventoryAdjust 1 items cat := rfl

theorem inventoryCredit_eq_adjust (items : List OrderItem) (cat : Catalog) :
    inventoryCredit items cat = inventoryAdjust (-1) items cat := rfl

theorem applyItemAdjust_ticketTypes (s : Int) (it : OrderItem) (cat : Catalog) :
    (applyItemAdjust s it cat).ticketTypes
      = adjustSoldTicketType (s * (it.quantity : Int)) it.ticketTypeId cat.ticketTypes := by
  cases hd : it.dayTierPriceId <;> cases ht : it.ticketTierId <;> cases hp : it.dayPassId <;>
    simp [applyItemAdjust, hd, ht, hp]

theorem applyItemAdjust_tiers (s : Int) (it : OrderItem) (cat : Catalog) :
    (applyItemAdjust s it cat).tiers
      = (match it.dayTierPriceId, it.ticketTierId with
         | some _, _ => cat.tiers
         | none, some tr => adjustSoldTier (s * (it.quantity : Int)) tr cat.tiers
         | none, none => cat.tiers) := by
  cases hd : it.dayTierPriceId <;> cases ht : it.ticketTierId <;> cases hp : it.dayPassId <;>
    simp [applyItemAdjust, hd, ht, hp]

theorem applyItemAdjust_dayPasses (s : Int) (it : OrderItem) (cat : Catalog) :
    (applyItemAdjust s it cat).dayPasses
      = (match it.dayTierPriceId, it.dayPassId with
         | some _, _ => cat.dayPasses
         | none, some dp => adjustSoldDayPass (s * (it.quantity : Int)) dp cat.dayPasses
         | none, none => cat.dayPasses) := by
  cases hd : it.dayTierPriceId <;> cases ht : it.ticketTierId <;> cases hp : it.dayPassId <;>
    simp [applyItemAdjust, hd, ht, hp]

theorem applyItemAdjust_dayTierPrices (s : Int) (it : OrderItem) (cat : Catalog) :
    (applyItemAdjust s it cat).dayTierPrices
      = (match it.dayTierPriceId with
         | some c => adjustSoldDayTierPrice (s * (it.quantity : Int)) c cat.dayTierPrices
         | none => cat.dayTierPrices) := by
  cases hd : it.dayTierPriceId <;> cases ht : it.ticketTierId <;> cases hp : it.dayPassId <;>
    simp [applyItemAdjust, hd, ht, hp]

theorem soldTicketType_inventoryAdjust (s : Int) (items : List OrderItem) (cat : Catalog)
    (pk : Nat) :
    soldTicketType (inventoryAdjust s items cat).ticketTypes pk
      = soldTicketType cat.ticketTypes pk
        + (if hasTicketType cat.ticketTypes pk = true then s * ttQty items pk else 0) := by
  induction items generalizing cat with
  | nil => simp [inventoryAdjust, ttQty]
  | cons it rest ih =>
    have step : inventoryAdjust s (it :: rest) cat
        = inventoryAdjust s rest (applyItemAdjust s it cat) := rfl
    rw [step, ih, applyItemAdjust_ticketTypes, soldTicketType_adjust, hasTicketType_adjust]
    by_cases hpk : it.ticketTypeId = pk <;>
      by_cases hh : hasTicketType cat.ticketTypes pk = true <;>
      simp [ttQty, hpk, hh] <;> ring

theorem hasTicketType_inventoryAdjust (s : Int) (items : List OrderItem) (cat : Catalog)
    (pk : Nat) :
    hasTicketType (inventoryAdjust s items cat).ticketTypes pk
      = hasTicketType cat.ticketTypes pk := by
  induction items generalizing cat with
  | nil => simp [inventoryAdjust]
  | cons it rest ih =>
    have step : inventoryAdjust s (it :: rest) cat
        = inventoryAdjust s rest (applyItemAdjust s it cat) := rfl
    rw [step, ih, applyItemAdjust_ticketTypes, hasTicketType_adjust]

theorem soldTier_inventoryAdjust (s : Int) (items : List OrderItem) (cat : Catalog)
    (pk : Nat) :
    soldTier (inventoryAdjust s items cat).tiers pk
      = soldTier cat.tiers pk
        + (if hasTier cat.tiers pk = true then s * tierQty items pk else 0) := by
  induction items generalizing cat with
  | nil => simp [inventoryAdjust, tierQty]
  | cons it rest ih =>
    have step : inventoryAdjust s (it :: rest) cat
        = inventoryAdjust s rest (applyItemAdjust s it cat) := rfl
    rw [step, ih]
    cases hd : it.dayTierPriceId with
    | some c =>
      have hcomp : (applyItemAdjust s it cat).tiers = cat.tiers := by
        simp [applyItemAdjust_tiers, hd]
      rw [hcomp]
      simp [tierQty, hd]
    | none =>
      cases ht : it.ticketTierId with
      | none =>
        have hcomp : (applyItemAdjust s it cat).tiers = cat.tiers := by
          simp [applyItemAdjust_tiers, hd, ht]
        rw [hcomp]
        simp [tierQty, hd, ht]
      | some tr =>
        have hcomp : (applyItemAdjust s it cat).tiers
            = adjustSoldTier (s * (it.quantity : Int)) tr cat.tiers := by
          simp [applyItemAdjust_tiers, hd, ht]
        rw [hcomp, soldTier_adjust, hasTier_adjust]
        by_cases hpk : tr = pk <;>
          by_cases hh : hasTier cat.tiers pk = true <;>
          simp [tierQty, hd, ht, hpk, hh] <;> ring

theorem hasTier_inventoryAdjust (s : Int) (items : List OrderItem) (cat : Catalog)
    (pk : Nat) :
    hasTier (inventoryAdjust s items cat).tiers pk = hasTier cat.tiers pk := by
  induction items generalizing cat with
  | nil => simp [inventoryAdjust]
  | cons it rest ih =>
    have step : inventoryAdjust s (it :: rest) cat
        = inventoryAdjust s rest (applyItemAdjust s it cat) := rfl
    rw [step, ih]
    cases hd : it.dayTierPriceId <;> cases ht : it.ticketTierId <;>
      simp [applyItemAdjust_tiers, hd, ht, hasTier_adjust]

theorem soldDayPass_inventoryAdjust (s : Int) (items : List OrderItem) (cat : Catalog)
    (pk : Nat) :
    soldDayPass (inventoryAdjust s items cat).dayPasses pk
      = soldDayPass cat.dayPasses pk
        + (if hasDayPass cat.dayPasses pk = true then s * dayQty items pk else 0) := by
  induction items generalizing cat with
  | nil => simp [inventoryAdjust, dayQty]
  | cons it rest ih =>
    have step : inventoryAdjust s (it :: rest) cat
        = inventoryAdjust s rest (applyItemAdjust s it cat) := rfl
    rw [step, ih]
    cases hd : it.dayTierPriceId with
    | some c =>
      have hcomp : (applyItemAdjust s it cat).dayPasses = cat.dayPasses := by
        simp [applyItemAdjust_dayPasses, hd]
      rw [hcomp]
      simp [dayQty, hd]
    | none =>
      cases hp : it.dayPassId with
      | none =>
        have hcomp : (applyItemAdjust s it cat).dayPasses = cat.dayPasses := by
          simp [applyItemAdjust_dayPasses, hd, hp]
        rw [hcomp]
        simp [dayQty, hd, hp]
      | some dp =>
        have hcomp : (applyItemAdjust s it cat).dayPasses
            = adjustSoldDayPass (s * (it.quantity : Int)) dp cat.dayPasses := by
          simp [applyItemAdjust_dayPasses, hd, hp]
        rw [hcomp, soldDayPass_adjust, hasDayPass_adjust]
        by_cases hpk : dp = pk <;>
          by_cases hh : hasDayPass cat.dayPasses pk = true <;>
          simp [dayQty, hd, hp, hpk, hh] <;> ring

theorem hasDayPass_inventoryAdjust (s : Int) (items : List OrderItem) (cat : Catalog)
    (pk : Nat) :
    hasDayPass (inventoryAdjust s items cat).dayPasses pk = hasDayPass cat.dayPasses pk := by
  induction items generalizing cat with
  | nil => simp [inventoryAdjust]
  | cons it rest ih =>
    have step : inventoryAdjust s (it :: rest) cat
        = inventoryAdjust s rest (applyItemAdjust s it cat) := rfl
    rw [step, ih]
    cases hd : it.dayTierPriceId <;> cases hp : it.dayPassId <;>
      simp [applyItemAdjust_dayPasses, hd, hp, hasDayPass_adjust]

theorem soldDayTierPrice_inventoryAdjust (s : Int) (items : List OrderItem) (cat : Catalog)
    (pk : Nat) :
    soldDayTierPrice (inventoryAdjust s items cat).dayTierPrices pk
      = soldDayTierPrice cat.dayTierPrices pk
        + (if hasDayTierPrice cat.dayTierPrices pk = true then s * cellQty items pk else 0) := by
  induction items generalizing cat with
  | nil => simp [inventoryAdjust, cellQty]
  | cons it rest ih =>
    have step : inventoryAdjust s (it :: rest) cat
        = inventoryAdjust s rest (applyItemAdjust s it cat) := rfl
    rw [step, ih]
    cases hd : it.dayTierPriceId with
    | none =>
      have hcomp : (applyItemAdjust s it cat).dayTierPrices = cat.dayTierPrices := by
        simp [applyItemAdjust_dayTierPrices, hd]
      rw [hcomp]
      simp [cellQty, hd]
    | some c =>
      have hcomp : (applyItemAdjust s it cat).dayTierPrices
          = adjustSoldDayTierPrice (s * (it.quantity : Int)) c cat.dayTierPrices := by
        simp [applyItemAdjust_dayTierPrices, hd]
      rw [hcomp, soldDayTierPrice_adjust, hasDayTierPrice_adjust]
      by_cases hpk : c = pk <;>
        by_cases hh : hasDayTierPrice cat.dayTierPrices pk = true <;>
        simp [cellQty, hd, hpk, hh] <;> ring

theorem hasDayTierPrice_inventoryAdjust (s : Int) (items : List OrderItem) (cat : Catalog)
    (pk : Nat) :
    hasDayTierPrice (inventoryAdjust s items cat).dayTierPrices pk
      = hasDayTierPrice cat.dayTierPrices pk := by
  induction items generalizing cat with
  | nil => simp [inventoryAdjust]
  | cons it rest ih =>
    have step : inventoryAdjust s (it :: rest) cat
        = inventoryAdjust s rest (applyItemAdjust s it cat) := rfl
    rw [step, ih]
    cases hd : it.dayTierPriceId <;>
      simp [applyItemAdjust_dayTierPrices, hd, hasDayTierPrice_adjust]

theorem ttQty_nonneg (items : List OrderItem) (pk : Nat) : 0 ≤ ttQty items pk := by
  induction items with
  | nil => simp [ttQty]
  | cons it rest ih =>
    simp only [ttQty]
    have : (0 : Int) ≤ if it.ticketTypeId = pk then (it.quantity : Int) else 0 := by
      split <;> simp
    omega

theorem tierQty_nonneg (items : List OrderItem) (pk : Nat) : 0 ≤ tierQty items pk := by
  induction items with
  | nil => simp [tierQty]
  | cons it rest ih =>
    simp only [tierQty]
    have : (0 : Int) ≤
        if it.dayTierPriceId = none ∧ it.ticketTierId = some pk then (it.quantity : Int)
        else 0 := by
      split <;> simp
    omega

theorem dayQty_nonneg (items : List OrderItem) (pk : Nat) : 0 ≤ dayQty items pk := by
  induction items with
  | nil => simp [dayQty]
  | cons it rest ih =>
    simp only [dayQty]
    have : (0 : Int) ≤
        if it.dayTierPriceId = none ∧ it.dayPassId = some pk then (it.quantity : Int)
        else 0 := by
      split <;> simp
    omega

theorem cellQty_nonneg (items : List OrderItem) (pk : Nat) : 0 ≤ cellQty items pk := by
  induction items with
  | nil => simp [cellQty]
  | cons it rest ih =>
    simp only [cellQty]
    have : (0 : Int) ≤ if it.dayTierPriceId = some pk then (it.quantity : Int) else 0 := by
      split <;> simp
    omega

theorem generateTicketsForItem_length (oid : Nat) (it : OrderItem) :
    (generateTicketsForItem oid it).length = it.quantity := by
  simp [generateTicketsForItem]

theorem generateTicketsForItem_mem (oid : Nat) (it : OrderItem) (tk : Ticket)
    (h : tk ∈ generateTicketsForItem oid it) :
    tk.status = TicketStatus.active ∧ tk.price = it.unitPrice ∧ tk.orderId = oid := by
  have := List.eq_of_mem_replicate h
  subst this
  exact ⟨rfl, rfl, rfl⟩

theorem generateTickets_mem (oid : Nat) (items : List OrderItem) (tk : Ticket)
    (h : tk ∈ generateTickets oid items) :
    tk.status = TicketStatus.active ∧ tk.orderId = oid := by
  simp only [generateTickets, List.mem_flatten] at h
  obtain ⟨l, hl, htk⟩ := h
  simp only [List.mem_map] at hl
  obtain ⟨it, _, rfl⟩ := hl
  have := generateTicketsForItem_mem oid it tk htk
  exact ⟨this.1, this.2.2⟩

theorem saveOrder_order (w : World) (o : Order) : (saveOrder w o).order = o := by
  simp only [saveOrder, updateTicketInventoryOnOrderSave]
  repeat' split
  all_goals rfl

theorem saveOrder_processedEvents (w : World) (o : Order) :
    (saveOrder w o).processedEvents = w.processedEvents := by
  simp only [saveOrder, updateTicketInventoryOnOrderSave]
  repeat' split
  all_goals rfl

theorem saveOrder_items (w : World) (o : Order) : (saveOrder w o).items = w.items := by
  simp only [saveOrder, updateTicketInventoryOnOrderSave]
  repeat' split
  all_goals rfl

theorem saveOrder_confirm_edge (w : World) (o : Order)
    (h1 : w.order.status ≠ OrderStatus.confirmed) (h2 : o.status = OrderStatus.confirmed) :
    (saveOrder w o).catalog = inventoryDebit w.items w.catalog
      ∧ (saveOrder w o).tickets = w.tickets ++ generateTickets o.id w.items := by
  have hne : ¬ (some w.order.status = some o.status) := by
    intro h
    exact h1 (by injection h with h; rw [h, h2])
  simp [saveOrder, updateTicketInventoryOnOrderSave, hne, h1, h2]

theorem saveOrder_credit_edge (w : World) (o : Order)
    (h1 : w.order.status = OrderStatus.confirmed)
    (h2 : o.status = OrderStatus.cancelled ∨ o.status = OrderStatus.refunded) :
    (saveOrder w o).catalog = inventoryCredit w.items w.catalog
      ∧ (saveOrder w o).tickets = cancelOrderTickets o.id w.tickets := by
  have hne : ¬ (some w.order.status = some o.status) := by
    intro h
    injection h with h
    rcases h2 with h2 | h2 <;> rw [h1, h2] at h <;> cases h
  have h3 : ¬ o.status = OrderStatus.confirmed := by
    rcases h2 with h2 | h2 <;> rw [h2] <;> intro hc <;> cases hc
  have h3' : ¬ OrderStatus.confirmed = o.status := fun h => h3 h.symm
  simp [saveOrder, updateTicketInventoryOnOrderSave, hne, h1, h2, h3, h3']

theorem saveOrder_no_edge (w : World) (o : Order)
    (hc : ¬ (w.order.status ≠ OrderStatus.confirmed ∧ o.status = OrderStatus.confirmed))
    (hr : ¬ (w.order.status = OrderStatus.confirmed ∧
        (o.status = OrderStatus.cancelled ∨ o.status = OrderStatus.refunded))) :
    (saveOrder w o).catalog = w.catalog ∧ (saveOrder w o).tickets = w.tickets := by
  simp only [saveOrder, updateTicketInventoryOnOrderSave]
  repeat' split
  all_goals first
    | exact ⟨rfl, rfl⟩
    | (rename_i hcase; exact absurd hcase (by simp_all))

theorem handlePaymentSucceeded_processedEvents (now : Int) (ev : StripeEvent) (w : World) :
    ((handlePaymentSucceeded now ev w).1).processedEvents = w.processedEvents := by
  unfold handlePaymentSucceeded
  cases h : ev.orderIdMeta with
  | none => rfl
  | some oid =>
    simp only []
    split_ifs <;> simp [confirmPayment, saveOrder_processedEvents]

theorem handlePaymentFailed_processedEvents (ev : StripeEvent) (w : World) :
    ((handlePaymentFailed ev w).1).processedEvents = w.processedEvents := by
  unfold handlePaymentFailed
  cases h : ev.orderIdMeta with
  | none => rfl
  | some oid =>
    simp only []
    split_ifs <;> simp [saveOrder_processedEvents]

theorem handleRefund_processedEvents (ev : StripeEvent) (w : World) :
    ((handleRefund ev w).1).processedEvents = w.processedEvents := by
  unfold handleRefund
  split_ifs <;> simp [saveOrder_processedEvents]

theorem handlePaymentCanceled_processedEvents (ev : StripeEvent) (w : World) :
    ((handlePaymentCanceled ev w).1).processedEvents = w.processedEvents := by
  unfold handlePaymentCanceled
  cases h : ev.orderIdMeta with
  | none => rfl
  | some oid =>
    simp only []
    split_ifs <;> simp [saveOrder_processedEvents]

theorem stripeWebhook_of_processed (now : Int) (ev : StripeEvent) (w : World)
    (h : ev.id ∈ w.processedEvents) :
    stripeWebhook now ev w = (w, 200) := by
  have hcc : w.processedEvents.contains ev.id = true := by simpa using h
  unfold stripeWebhook
  rw [if_pos hcc]

theorem webhookStep_mem_processed (now : Int) (ev : StripeEvent) (w : World) :
    ev.id ∈ (webhookStep now ev w).processedEvents := by
  unfold webhookStep stripeWebhook
  by_cases hc : ev.id ∈ w.processedEvents
  · have hcc : w.processedEvents.contains ev.id = true := by simpa using hc
    rw [if_pos hcc]
    exact hc
  · have hcc : ¬ (w.processedEvents.contains ev.id = true) := by simpa using hc
    rw [if_neg hcc]
    split_ifs <;>
      simp [handlePaymentSucceeded_processedEvents, handlePaymentFailed_processedEvents,
            handleRefund_processedEvents, handlePaymentCanceled_processedEvents]

theorem webhookStep_idem (now : Int) (ev : StripeEvent) (w : World) :
    stripeWebhook now ev (webhookStep now ev w) = (webhookStep now ev w, 200) :=
  stripeWebhook_of_processed now ev _ (webhookStep_mem_processed now ev w)

theorem confirmPayment_spec (now : Int) (pid : String) (w : World)
    (h : w.order.status ≠ OrderStatus.confirmed) :
    (confirmPayment now pid w).order
        = { w.order with status := OrderStatus.confirmed,
                         paidAt := some now, paymentId := some pid }
      ∧ (confirmPayment now pid w).catalog = inventoryDebit w.items w.catalog
      ∧ (confirmPayment now pid w).tickets = w.tickets ++ generateTickets w.order.id w.items
      ∧ (confirmPayment now pid w).items = w.items
      ∧ (confirmPayment now pid w).processedEvents = w.processedEvents := by
  unfold confirmPayment
  refine ⟨saveOrder_order _ _, ?_, ?_, saveOrder_items _ _, saveOrder_processedEvents _ _⟩
  · exact (saveOrder_confirm_edge w _ h rfl).1
  · exact (saveOrder_confirm_edge w _ h rfl).2

theorem stripeWebhook_confirm_path (now : Int) (ev : StripeEvent) (w : World)
    (hnc : ev.id ∉ w.processedEvents)
    (hty : ev.eventType = evtPaymentSucceeded)
    (hmeta : ev.orderIdMeta = some w.order.id)
    (hexp : w.order.isExpired now = false)
    (hst : w.order.status ≠ OrderStatus.confirmed) :
    stripeWebhook now ev w
      = (confirmPayment now ev.paymentIntentId
          { w with processedEvents := ev.id :: w.processedEvents }, 200) := by
  have hcc : ¬ (w.processedEvents.contains ev.id = true) := by simpa using hnc
  unfold stripeWebhook
  rw [if_neg hcc, if_pos hty]
  unfold handlePaymentSucceeded
  simp only [hmeta]
  rw [if_neg (by simp)]
  rw [if_neg (by simpa using hexp)]
  rw [if_pos (by simpa using hst)]

theorem cancelOrderTickets_length (oid : Nat) (l : List Ticket) :
    (cancelOrderTickets oid l).length = l.length := by
  simp [cancelOrderTickets]

theorem webhookStep_idem_state (now : Int) (ev : StripeEvent) (w : World) :
    webhookStep now ev (webhookStep now ev w) = webhookStep now ev w := by
  show (stripeWebhook now ev (webhookStep now ev w)).1 = webhookStep now ev w
  rw [webhookStep_idem]

/-- C1: replaying the same "payment succeeded" webhook event any number of
times sequentially changes the state only once: every iterate beyond the
first equals the state after one processing, every replay is acknowledged
with HTTP 200, and the single effective processing (of a fresh event id, for
a live unconfirmed order) performs the one `confirmed` transition, appends
exactly one set of generated tickets, and debits inventory exactly once. -/
theorem webhook_replay_exactly_once (now : Int) (ev : StripeEvent) (w : World) (n : Nat) :
    (webhookStep now ev)^[n + 1] w = webhookStep now ev w
    ∧ (stripeWebhook now ev (webhookStep now ev w)).2 = 200
    ∧ (ev.id ∉ w.processedEvents → ev.eventType = evtPaymentSucceeded →
        ev.orderIdMeta = some w.order.id →
        w.order.isExpired now = false →
        w.order.status ≠ OrderStatus.confirmed →
        (webhookStep now ev w).order.status = OrderStatus.confirmed
          ∧ (webhookStep now ev w).tickets = w.tickets ++ generateTickets w.order.id w.items
          ∧ (webhookStep now ev w).catalog = inventoryDebit w.items w.catalog) := by
  refine ⟨?_, ?_, ?_⟩
  · induction n with
    | zero => simp
    | succ m ih =>
      rw [Function.iterate_succ_apply', ih, webhookStep_idem_state]
  · rw [webhookStep_idem]
  · intro hnc hty hmeta hexp hst
    have hw : webhookStep now ev w
        = confirmPayment now ev.paymentIntentId
            { w with processedEvents := ev.id :: w.processedEvents } := by
      unfold webhookStep
      rw [stripeWebhook_confirm_path now ev w hnc hty hmeta hexp hst]
    have spec := confirmPayment_spec now ev.paymentIntentId
      { w with processedEvents := ev.id :: w.processedEvents } hst
    rw [hw]
    exact ⟨by rw [spec.1], spec.2.2.1, spec.2.1⟩

/-- Witness for C1 on the sample world: three replays coincide with one
processing, which confirms the order and creates its two tickets. -/
theorem webhook_replay_exactly_once_witness :
    (webhookStep 100 sampleEvent)^[3] sampleWorld = webhookStep 100 sampleEvent sampleWorld
    ∧ (stripeWebhook 100 sampleEvent (webhookStep 100 sampleEvent sampleWorld)).2 = 200
    ∧ (webhookStep 100 sampleEvent sampleWorld).order.status = OrderStatus.confirmed
    ∧ (webhookStep 100 sampleEvent sampleWorld).tickets.length = 2 := by
  have h := webhook_replay_exactly_once 100 sampleEvent sampleWorld 2
  have h3 := h.2.2 (by simp [sampleEvent, sampleWorld]) rfl (by rfl) (by decide) (by decide)
  refine ⟨h.1, h.2.1, h3.1, ?_⟩
  rw [h3.2.1]
  rfl

/-- C2: confirming an order from `pending`/`processing` records `paid_at`,
debits every inventory unit referenced by each item by that item's quantity
(summed over the items that reference the unit), and creates exactly
`quantity` active tickets per item at the frozen unit price; and on any save
that does not change the status into `confirmed` no ticket row is created
and no sold counter increases. -/
theorem confirm_transition_effects (now : Int) (pid : String) (w : World)
    (h : w.order.status = OrderStatus.pending ∨ w.order.status = OrderStatus.processing) :
    (confirmPayment now pid w).order.status = OrderStatus.confirmed
    ∧ (confirmPayment now pid w).order.paidAt = some now
    ∧ (∀ pk, hasTicketType w.catalog.ticketTypes pk = true →
        soldTicketType (confirmPayment now pid w).catalog.ticketTypes pk
          = soldTicketType w.catalog.ticketTypes pk + ttQty w.items pk)
    ∧ (∀ pk, hasTier w.catalog.tiers pk = true →
        soldTier (confirmPayment now pid w).catalog.tiers pk
          = soldTier w.catalog.tiers pk + tierQty w.items pk)
    ∧ (∀ pk, hasDayPass w.catalog.dayPasses pk = true →
        soldDayPass (confirmPayment now pid w).catalog.dayPasses pk
          = soldDayPass w.catalog.dayPasses pk + dayQty w.items pk)
    ∧ (∀ pk, hasDayTierPrice w.catalog.dayTierPrices pk = true →
        soldDayTierPrice (confirmPayment now pid w).catalog.dayTierPrices pk
          = soldDayTierPrice w.catalog.dayTierPrices pk + cellQty w.items pk)
    ∧ (confirmPayment now pid w).tickets = w.tickets ++ generateTickets w.order.id w.items
    ∧ (∀ it ∈ w.items, (generateTicketsForItem w.order.id it).length = it.quantity
        ∧ ∀ tk ∈ generateTicketsForItem w.order.id it,
            tk.status = TicketStatus.active ∧ tk.price = it.unitPrice)
    ∧ (∀ (w₂ : World) (o₂ : Order),
        ¬ (w₂.order.status ≠ OrderStatus.confirmed ∧ o₂.status = OrderStatus.confirmed) →
        (saveOrder w₂ o₂).tickets.length = w₂.tickets.length
          ∧ (∀ pk, soldTicketType (saveOrder w₂ o₂).catalog.ticketTypes pk
              ≤ soldTicketType w₂.catalog.ticketTypes pk)
          ∧ (∀ pk, soldTier (saveOrder w₂ o₂).catalog.tiers pk
              ≤ soldTier w₂.catalog.tiers pk)
          ∧ (∀ pk, soldDayPass (saveOrder w₂ o₂).catalog.dayPasses pk
              ≤ soldDayPass w₂.catalog.dayPasses pk)
          ∧ (∀ pk, soldDayTierPrice (saveOrder w₂ o₂).catalog.dayTierPrices pk
              ≤ soldDayTierPrice w₂.catalog.dayTierPrices pk)) := by
  have hne : w.order.status ≠ OrderStatus.confirmed := by
    rcases h with h | h <;> rw [h] <;> intro hc <;> cases hc
  have spec := confirmPayment_spec now pid w hne
  refine ⟨by rw [spec.1], by rw [spec.1], ?_, ?_, ?_, ?_, spec.2.2.1, ?_, ?_⟩
  · intro pk hpk
    rw [spec.2.1, inventoryDebit_eq_adjust, soldTicketType_inventoryAdjust]
    simp [hpk]
  · intro pk hpk
    rw [spec.2.1, inventoryDebit_eq_adjust, soldTier_inventoryAdjust]
    simp [hpk]
  · intro pk hpk
    rw [spec.2.1, inventoryDebit_eq_adjust, soldDayPass_inventoryAdjust]
    simp [hpk]
  · intro pk hpk
    rw [spec.2.1, inventoryDebit_eq_adjust, soldDayTierPrice_inventoryAdjust]
    simp [hpk]
  · intro it _
    refine ⟨generateTicketsForItem_length _ _, fun tk htk => ?_⟩
    have hm := generateTicketsForItem_mem w.order.id it tk htk
    exact ⟨hm.1, hm.2.1⟩
  · intro w₂ o₂ hno
    by_cases hcr : w₂.order.status = OrderStatus.confirmed ∧
        (o₂.status = OrderStatus.cancelled ∨ o₂.status = OrderStatus.refunded)
    · have hc := saveOrder_credit_edge w₂ o₂ hcr.1 hcr.2
      refine ⟨by rw [hc.2, cancelOrderTickets_length], ?_, ?_, ?_, ?_⟩
      · intro pk
        rw [hc.1, inventoryCredit_eq_adjust, soldTicketType_inventoryAdjust]
        by_cases hpk : hasTicketType w₂.catalog.ticketTypes pk = true
        · have := ttQty_nonneg w₂.items pk
          simp only [hpk, if_true, neg_one_mul]
          omega
        · simp [hpk]
      · intro pk
        rw [hc.1, inventoryCredit_eq_adjust, soldTier_inventoryAdjust]
        by_cases hpk : hasTier w₂.catalog.tiers pk = true
        · have := tierQty_nonneg w₂.items pk
          simp only [hpk, if_true, neg_one_mul]
          omega
        · simp [hpk]
      · intro pk
        rw [hc.1, inventoryCredit_eq_adjust, soldDayPass_inventoryAdjust]
        by_cases hpk : hasDayPass w₂.catalog.dayPasses pk = true
        · have := dayQty_nonneg w₂.items pk
          simp only [hpk, if_true, neg_one_mul]
          omega
        · simp [hpk]
      · intro pk
        rw [hc.1, inventoryCredit_eq_adjust, soldDayTierPrice_inventoryAdjust]
        by_cases hpk : hasDayTierPrice w₂.catalog.dayTierPrices pk = true
        · have := cellQty_nonneg w₂.items pk
          simp only [hpk, if_true, neg_one_mul]
          omega
        · simp [hpk]
    · have hn := saveOrder_no_edge w₂ o₂ hno hcr
      exact ⟨by rw [hn.2], fun pk => by rw [hn.1], fun pk => by rw [hn.1],
             fun pk => by rw [hn.1], fun pk => by rw [hn.1]⟩

/-- Witness for C2 on the sample world: confirming the pending sample order
records `paid_at` and debits the tiered type and its Gold tier by 2. -/
theorem confirm_transition_effects_witness :
    (sampleWorld.order.status = OrderStatus.pending
        ∨ sampleWorld.order.status = OrderStatus.processing)
    ∧ (confirmPayment 100 "pi_1" sampleWorld).order.paidAt = some 100
    ∧ soldTicketType (confirmPayment 100 "pi_1" sampleWorld).catalog.ticketTypes 3
        = soldTicketType sampleWorld.catalog.ticketTypes 3 + ttQty sampleWorld.items 3
    ∧ soldTier (confirmPayment 100 "pi_1" sampleWorld).catalog.tiers 12
        = soldTier sampleWorld.catalog.tiers 12 + tierQty sampleWorld.items 12 := by
  have h := confirm_transition_effects 100 "pi_1" sampleWorld (Or.inl rfl)
  exact ⟨Or.inl rfl, h.2.1, h.2.2.1 3 (by decide), h.2.2.2.1 12 (by decide)⟩

/-- C4: confirming an order and then refunding it returns every inventory
unit's sold counter to its pre-confirmation value, and every ticket created
for the order by the confirmation ends up `cancelled`. -/
theorem round_trip_credit (now : Int) (pid : String) (w : World)
    (h : w.order.status = OrderStatus.pending ∨ w.order.status = OrderStatus.processing) :
    ∃ w2, createRefund (confirmPayment now pid w) = some w2
      ∧ (∀ pk, hasTicketType w.catalog.ticketTypes pk = true →
          soldTicketType w2.catalog.ticketTypes pk = soldTicketType w.catalog.ticketTypes pk)
      ∧ (∀ pk, hasTier w.catalog.tiers pk = true →
          soldTier w2.catalog.tiers pk = soldTier w.catalog.tiers pk)
      ∧ (∀ pk, hasDayPass w.catalog.dayPasses pk = true →
          soldDayPass w2.catalog.dayPasses pk = soldDayPass w.catalog.dayPasses pk)
      ∧ (∀ pk, hasDayTierPrice w.catalog.dayTierPrices pk = true →
          soldDayTierPrice w2.catalog.dayTierPrices pk
            = soldDayTierPrice w.catalog.dayTierPrices pk)
      ∧ w2.order.status = OrderStatus.refunded
      ∧ w2.tickets.length = w.tickets.length + (generateTickets w.order.id w.items).length
      ∧ (∀ tk ∈ w2.tickets.drop w.tickets.length, tk.status = TicketStatus.cancelled) := by
  have hne : w.order.status ≠ OrderStatus.confirmed := by
    rcases h with h | h <;> rw [h] <;> intro hc <;> cases hc
  have spec := confirmPayment_spec now pid w hne
  set w1 := confirmPayment now pid w with hw1
  have hw1order : w1.order = { w.order with status := OrderStatus.confirmed,
                                            paidAt := some now,
                                            paymentId := some pid } := spec.1
  have hpay : w1.order.paymentId = some pid := by rw [hw1order]
  have hcstat : w1.order.status = OrderStatus.confirmed := by rw [hw1order]
  have hrefund : createRefund w1
      = some (saveOrder w1 { w1.order with status := OrderStatus.refunded }) := by
    unfold createRefund
    rw [if_neg (by rw [hpay]; intro hc; cases hc), if_neg (by rw [hcstat]; simp)]
  set o2 : Order := { w1.order with status := OrderStatus.refunded } with ho2
  have hedge := saveOrder_credit_edge w1 o2 hcstat (Or.inr rfl)
  refine ⟨saveOrder w1 o2, hrefund, ?_, ?_, ?_, ?_, ?_, ?_, ?_⟩
  · intro pk hpk
    rw [hedge.1, spec.2.2.2.1, spec.2.1, inventoryCredit_eq_adjust, inventoryDebit_eq_adjust,
        soldTicketType_inventoryAdjust, hasTicketType_inventoryAdjust,
        soldTicketType_inventoryAdjust]
    simp only [hpk, if_true, one_mul, neg_one_mul]
    omega
  · intro pk hpk
    rw [hedge.1, spec.2.2.2.1, spec.2.1, inventoryCredit_eq_adjust, inventoryDebit_eq_adjust,
        soldTier_inventoryAdjust, hasTier_inventoryAdjust, soldTier_inventoryAdjust]
    simp only [hpk, if_true, one_mul, neg_one_mul]
    omega
  · intro pk hpk
    rw [hedge.1, spec.2.2.2.1, spec.2.1, inventoryCredit_eq_adjust, inventoryDebit_eq_adjust,
        soldDayPass_inventoryAdjust, hasDayPass_inventoryAdjust, soldDayPass_inventoryAdjust]
    simp only [hpk, if_true, one_mul, neg_one_mul]
    omega
  · intro pk hpk
    rw [hedge.1, spec.2.2.2.1, spec.2.1, inventoryCredit_eq_adjust, inventoryDebit_eq_adjust,
        soldDayTierPrice_inventoryAdjust, hasDayTierPrice_inventoryAdjust,
        soldDayTierPrice_inventoryAdjust]
    simp only [hpk, if_true, one_mul, neg_one_mul]
    omega
  · rw [saveOrder_order]
  · rw [hedge.2, cancelOrderTickets_length, spec.2.2.1]
    simp
  · intro tk htk
    rw [hedge.2, spec.2.2.1] at htk
    have ho2id : o2.id = w.order.id := by rw [ho2, hw1order]
    unfold cancelOrderTickets at htk
    rw [← List.map_drop, List.drop_left] at htk
    simp only [List.mem_map] at htk
    obtain ⟨tk0, htk0, rfl⟩ := htk
    have hm := generateTickets_mem w.order.id w.items tk0 htk0
    have hcond : (tk0.orderId == o2.id && tk0.status == TicketStatus.active) = true := by
      rw [ho2id]
      simp [hm.1, hm.2]
    rw [if_pos hcond]

/-- Witness for C4 on the sample world: confirm then refund; the Gold tier's
sold counter returns to its pre-confirmation value and the order ends
`refunded`. -/
theorem round_trip_credit_witness :
    (sampleWorld.order.status = OrderStatus.pending
        ∨ sampleWorld.order.status = OrderStatus.processing)
    ∧ ∃ w2, createRefund (confirmPayment 100 "pi_1" sampleWorld) = some w2
        ∧ soldTier w2.catalog.tiers 12 = soldTier sampleWorld.catalog.tiers 12
        ∧ soldTicketType w2.catalog.ticketTypes 3
            = soldTicketType sampleWorld.catalog.ticketTypes 3
        ∧ w2.order.status = OrderStatus.refunded := by
  obtain ⟨w2, h1, h2, h3, h4, h5, h6, h7, h8⟩ :=
    round_trip_credit 100 "pi_1" sampleWorld (Or.inl rfl)
  exact ⟨Or.inl rfl, w2, h1, h3 12 (by decide), h2 3 (by decide), h6⟩

theorem saveOrder_refund_from_pending (w : World) (o : Order)
    (h1 : w.order.status = OrderStatus.pending) (h2 : o.status = OrderStatus.refunded) :
    (saveOrder w o).catalog = w.catalog ∧ (saveOrder w o).tickets = w.tickets :=
  saveOrder_no_edge w o (fun hc => by rw [h2] at hc; cases hc.2)
    (fun hc => by rw [h1] at hc; cases hc.1)

/-- Counterexample for C5: an order in `processing` whose `expires_at` (1000)
is already past at time 2000 still gets `confirmed` by the
payment-succeeded webhook, with two tickets created, because `is_expired`
holds only for `pending` orders. -/
theorem expired_order_guard_cex :
    expiredProcessingWorld.order.expiresAt = some 1000
    ∧ ((1000 : Int) < 2000)
    ∧ (webhookStep 2000 sampleEvent expiredProcessingWorld).order.status
        = OrderStatus.confirmed
    ∧ (webhookStep 2000 sampleEvent expiredProcessingWorld).order.status
        ≠ OrderStatus.refunded
    ∧ (webhookStep 2000 sampleEvent expiredProcessingWorld).tickets.length = 2 := by
  refine ⟨rfl, by decide, ?_, ?_, ?_⟩
  · rfl
  · decide
  · rfl

/-- C5 (amended): for an order in status `pending` whose `expires_at` lies in
the past when a fresh successful-payment event arrives, processing the event
leaves the order `refunded` (after the gateway refund), never `confirmed`,
creates no tickets and touches no inventory, and acknowledges the event. -/
theorem expired_pending_order_guard (now t : Int) (ev : StripeEvent) (w : World)
    (hnc : ev.id ∉ w.processedEvents)
    (hty : ev.eventType = evtPaymentSucceeded)
    (hmeta : ev.orderIdMeta = some w.order.id)
    (hpend : w.order.status = OrderStatus.pending)
    (hexp : w.order.expiresAt = some t)
    (hlt : t < now) :
    (webhookStep now ev w).order.status = OrderStatus.refunded
    ∧ (webhookStep now ev w).tickets = w.tickets
    ∧ (webhookStep now ev w).catalog = w.catalog
    ∧ (stripeWebhook now ev w).2 = 200 := by
  have hcc : ¬ (w.processedEvents.contains ev.id = true) := by simpa using hnc
  have hexpired : w.order.isExpired now = true := by
    unfold Order.isExpired
    rw [if_pos hpend, hexp]
    simpa using hlt
  have hpath : stripeWebhook now ev w
      = (saveOrder { w with processedEvents := ev.id :: w.processedEvents }
          { w.order with status := OrderStatus.refunded,
                         cancellationReason := "Order expired before payment was completed" },
         200) := by
    unfold stripeWebhook
    rw [if_neg hcc, if_pos hty]
    unfold handlePaymentSucceeded
    simp only [hmeta]
    rw [if_neg (by simp)]
    rw [if_pos (by simpa using hexpired)]
  have hstep : webhookStep now ev w
      = saveOrder { w with processedEvents := ev.id :: w.processedEvents }
          { w.order with status := OrderStatus.refunded,
                         cancellationReason := "Order expired before payment was completed" } := by
    unfold webhookStep
    rw [hpath]
  have hframe := saveOrder_refund_from_pending
    { w with processedEvents := ev.id :: w.processedEvents }
    { w.order with status := OrderStatus.refunded,
                   cancellationReason := "Order expired before payment was completed" }
    hpend rfl
  refine ⟨?_, ?_, ?_, ?_⟩
  · rw [hstep, saveOrder_order]
  · rw [hstep, hframe.2]
  · rw [hstep, hframe.1]
  · rw [hpath]

/-- Witness for C5 (amended) on the sample world at time 2000: the pending,
expired sample order ends `refunded` with no tickets created. -/
theorem expired_pending_order_guard_witness :
    sampleWorld.order.status = OrderStatus.pending
    ∧ (webhookStep 2000 sampleEvent sampleWorld).order.status = OrderStatus.refunded
    ∧ (webhookStep 2000 sampleEvent sampleWorld).tickets = sampleWorld.tickets := by
  have h := expired_pending_order_guard 2000 1000 sampleEvent sampleWorld
    (by simp [sampleEvent, sampleWorld]) rfl rfl rfl rfl (by decide)
  exact ⟨rfl, h.1, h.2.1⟩

/-- C10: `Order.is_expired` is true only when the status is `pending`; for
any other status it is false, so a fresh successful-payment event for a
`processing` order takes the confirmation branch, not the expired-order
branch. -/
theorem is_expired_only_pending (now : Int) (o : Order) (ev : StripeEvent) (w : World) :
    (o.status ≠ OrderStatus.pending → o.isExpired now = false)
    ∧ (ev.id ∉ w.processedEvents → ev.eventType = evtPaymentSucceeded →
        ev.orderIdMeta = some w.order.id →
        w.order.status = OrderStatus.processing →
        (webhookStep now ev w).order.status = OrderStatus.confirmed) := by
  constructor
  · intro h
    unfold Order.isExpired
    rw [if_neg h]
  · intro hnc hty hmeta hproc
    have hexp : w.order.isExpired now = false := by
      unfold Order.isExpired
      rw [if_neg (by rw [hproc]; intro hc; cases hc)]
    have hst : w.order.status ≠ OrderStatus.confirmed := by
      rw [hproc]
      intro hc
      cases hc
    have hw : webhookStep now ev w = confirmPayment now ev.paymentIntentId
        { w with processedEvents := ev.id :: w.processedEvents } := by
      unfold webhookStep
      rw [stripeWebhook_confirm_path now ev w hnc hty hmeta hexp hst]
    rw [hw, (confirmPayment_spec now ev.paymentIntentId
      { w with processedEvents := ev.id :: w.processedEvents } hst).1]

/-- Witness for C10: the expired `processing` sample order is not "expired"
in the model's sense and gets confirmed by the webhook at time 2000. -/
theorem is_expired_only_pending_witness :
    expiredProcessingWorld.order.status ≠ OrderStatus.pending
    ∧ Order.isExpired 2000 expiredProcessingWorld.order = false
    ∧ (webhookStep 2000 sampleEvent expiredProcessingWorld).order.status
        = OrderStatus.confirmed := by
  have h := is_expired_only_pending 2000 expiredProcessingWorld.order sampleEvent
    expiredProcessingWorld
  exact ⟨by decide, h.1 (by decide),
         h.2 (by simp [sampleEvent, expiredProcessingWorld, sampleWorld]) rfl rfl rfl⟩

/-- Counterexample for C6: refunding a confirmed order whose ticket-type
counter is already 0 (quantity 2 on the item) drives the counter to −2; the
claimed clamp `max(0, sold − quantity)` would give 0. -/
theorem inventory_credit_clamp_cex :
    soldTicketType confirmedZeroSoldWorld.catalog.ticketTypes 3 = 0
    ∧ soldTicketType (saveOrder confirmedZeroSoldWorld
        { confirmedZeroSoldWorld.order with status := OrderStatus.refunded
        }).catalog.ticketTypes 3 = -2
    ∧ soldTier (saveOrder confirmedZeroSoldWorld
        { confirmedZeroSoldWorld.order with status := OrderStatus.refunded
        }).catalog.tiers 12 = -2
    ∧ max 0 (soldTicketType confirmedZeroSoldWorld.catalog.ticketTypes 3 - 2) = 0
    ∧ (-2 : Int) ≠ 0 := by
  refine ⟨rfl, rfl, rfl, rfl, by decide⟩

/-- C6 (amended): the inventory credit on a confirmed order's cancellation,
refund or deletion sets each implicated unit's sold counter to
`sold − quantity` with no `max(0, ·)` clamp, for every unit kind. -/
theorem inventory_credit_unclamped (w : World) (o : Order)
    (items : List OrderItem) (o2 : Order)
    (h1 : w.order.status = OrderStatus.confirmed)
    (h2 : o.status = OrderStatus.cancelled ∨ o.status = OrderStatus.refunded)
    (h3 : o2.status = OrderStatus.confirmed) :
    (∀ pk, hasTicketType w.catalog.ticketTypes pk = true →
        soldTicketType (saveOrder w o).catalog.ticketTypes pk
          = soldTicketType w.catalog.ticketTypes pk - ttQty w.items pk)
    ∧ (∀ pk, hasTier w.catalog.tiers pk = true →
        soldTier (saveOrder w o).catalog.tiers pk
          = soldTier w.catalog.tiers pk - tierQty w.items pk)
    ∧ (∀ pk, hasDayPass w.catalog.dayPasses pk = true →
        soldDayPass (saveOrder w o).catalog.dayPasses pk
          = soldDayPass w.catalog.dayPasses pk - dayQty w.items pk)
    ∧ (∀ pk, hasDayTierPrice w.catalog.dayTierPrices pk = true →
        soldDayTierPrice (saveOrder w o).catalog.dayTierPrices pk
          = soldDayTierPrice w.catalog.dayTierPrices pk - cellQty w.items pk)
    ∧ (∀ pk, hasTicketType w.catalog.ticketTypes pk = true →
        soldTicketType (restoreInventoryOnOrderDelete o2 items w.catalog).ticketTypes pk
          = soldTicketType w.catalog.ticketTypes pk - ttQty items pk) := by
  have hedge := saveOrder_credit_edge w o h1 h2
  refine ⟨?_, ?_, ?_, ?_, ?_⟩
  · intro pk hpk
    rw [hedge.1, inventoryCredit_eq_adjust, soldTicketType_inventoryAdjust]
    simp only [hpk, if_true, neg_one_mul]
    omega
  · intro pk hpk
    rw [hedge.1, inventoryCredit_eq_adjust, soldTier_inventoryAdjust]
    simp only [hpk, if_true, neg_one_mul]
    omega
  · intro pk hpk
    rw [hedge.1, inventoryCredit_eq_adjust, soldDayPass_inventoryAdjust]
    simp only [hpk, if_true, neg_one_mul]
    omega
  · intro pk hpk
    rw [hedge.1, inventoryCredit_eq_adjust, soldDayTierPrice_inventoryAdjust]
    simp only [hpk, if_true, neg_one_mul]
    omega
  · intro pk hpk
    unfold restoreInventoryOnOrderDelete
    rw [if_pos h3, inventoryCredit_eq_adjust, soldTicketType_inventoryAdjust]
    simp only [hpk, if_true, neg_one_mul]
    omega

/-- Witness for C6 (amended) on the confirmed sample world. -/
theorem inventory_credit_unclamped_witness :
    confirmedZeroSoldWorld.order.status = OrderStatus.confirmed
    ∧ soldTicketType (saveOrder confirmedZeroSoldWorld
        { confirmedZeroSoldWorld.order with status := OrderStatus.cancelled
        }).catalog.ticketTypes 3
      = soldTicketType confirmedZeroSoldWorld.catalog.ticketTypes 3
          - ttQty confirmedZeroSoldWorld.items 3
    ∧ soldTicketType (restoreInventoryOnOrderDelete confirmedZeroSoldWorld.order
        confirmedZeroSoldWorld.items confirmedZeroSoldWorld.catalog).ticketTypes 3
      = soldTicketType confirmedZeroSoldWorld.catalog.ticketTypes 3
          - ttQty confirmedZeroSoldWorld.items 3 := by
  have h := inventory_credit_unclamped confirmedZeroSoldWorld
    { confirmedZeroSoldWorld.order with status := OrderStatus.cancelled }
    confirmedZeroSoldWorld.items confirmedZeroSoldWorld.order
    rfl (Or.inl rfl) rfl
  exact ⟨rfl, h.1 3 (by decide), h.2.2.2.2 3 (by decide)⟩

theorem validate_notOnSale (now : Int) (cat : Catalog) (req : OrderItemRequest)
    (tt : TicketType) (htt : cat.findTicketType req.ticketTypeId = some tt)
    (hsale : ¬ tt.isOnSale now = true) :
    validateOrderItem now cat req = Except.error errNotOnSale := by
  unfold validateOrderItem
  rw [htt]
  dsimp only
  rw [if_pos hsale]

theorem validate_typeAvail (now : Int) (cat : Catalog) (req : OrderItemRequest)
    (tt : TicketType) (htt : cat.findTicketType req.ticketTypeId = some tt)
    (hsale : tt.isOnSale now = true)
    (havail : (req.quantity : Int) > tt.availableQuantity) :
    validateOrderItem now cat req = Except.error errTypeAvailability := by
  unfold validateOrderItem
  rw [htt]
  dsimp only
  rw [if_neg (not_not_intro hsale), if_pos havail]

theorem validate_shape_branch (now : Int) (cat : Catalog) (req : OrderItemRequest)
    (tt : TicketType) (htt : cat.findTicketType req.ticketTypeId = some tt)
    (hsale : tt.isOnSale now = true)
    (havail : ¬ ((req.quantity : Int) > tt.availableQuantity)) :
    validateOrderItem now cat req = validateShape cat req tt := by
  unfold validateOrderItem
  rw [htt]
  dsimp only
  rw [if_neg (not_not_intro hsale), if_neg havail]

/-- Counterexample for C3: for the sample `tier_and_day` type, the line with
both the VIP tier (100.00) and the Day 1 pass (50.00) resolves to 150.00,
the sum of the two, while the matching DayTierCell's own stored price is
120.00. -/
theorem tier_and_day_price_cex :
    (validateOrderItem 100 sampleCatalog
        { ticketTypeId := 1, ticketTierId := some 11, dayPassId := some 21, quantity := 1
        }).map (fun v => v.unitPrice) = Except.ok (some 15000)
    ∧ (sampleCatalog.findDayTierCell 1 1 1).map (fun c => c.price) = some 12000
    ∧ (15000 : Int) ≠ 12000 := by
  refine ⟨rfl, rfl, by decide⟩

/-- C3 (amended): a `tier_and_day` purchase line carrying both ids resolves
to the sum of the tier's price and the day pass's price; the DayTierCell is
never consulted by the validator. -/
theorem tier_and_day_resolves_sum (now : Int) (cat : Catalog) (req : OrderItemRequest)
    (tt : TicketType) (tier : TicketTier) (dp : DayPass) (i j : Nat)
    (htt : cat.findTicketType req.ticketTypeId = some tt)
    (hshape : tt.pricingType = PricingType.tierAndDay)
    (hsale : tt.isOnSale now = true)
    (havail : ¬ ((req.quantity : Int) > tt.availableQuantity))
    (hti : req.ticketTierId = some i)
    (hdj : req.dayPassId = some j)
    (hftr : cat.findTier tt.id i = some tier)
    (hfdp : cat.findDayPass tt.id j = some dp)
    (htav : ¬ ((req.quantity : Int) > tier.availableQuantity))
    (hdav : ¬ ((req.quantity : Int) > dp.availableQuantity)) :
    validateOrderItem now cat req
      = Except.ok { ticketType := tt, tier := some tier, dayPass := some dp,
                    quantity := req.quantity, unitPrice := some (tier.price + dp.price) } := by
  rw [validate_shape_branch now cat req tt htt hsale havail]
  unfold validateShape
  simp only [hshape, hti, hdj, hftr, hfdp]
  rw [if_neg htav, if_neg hdav]

/-- Witness for C3 (amended) on the sample catalog: the resolved price is
the 150.00 sum of tier and day-pass prices. -/
theorem tier_and_day_resolves_sum_witness :
    sampleCatalog.findTicketType 1 = some comboType
    ∧ comboType.pricingType = PricingType.tierAndDay
    ∧ validateOrderItem 100 sampleCatalog
        { ticketTypeId := 1, ticketTierId := some 11, dayPassId := some 21, quantity := 1 }
      = Except.ok { ticketType := comboType, tier := some vipTier, dayPass := some day1Pass,
                    quantity := 1, unitPrice := some (vipTier.price + day1Pass.price) } := by
  refine ⟨rfl, rfl, ?_⟩
  exact tier_and_day_resolves_sum 100 sampleCatalog
    { ticketTypeId := 1, ticketTierId := some 11, dayPassId := some 21, quantity := 1 }
    comboType vipTier day1Pass 11 21 rfl rfl (by decide) (by decide) rfl rfl rfl rfl
    (by decide) (by decide)

theorem mapM_validate_error (now : Int) (cat : Catalog) (reqs : List OrderItemRequest)
    (req : OrderItemRequest) (hmem : req ∈ reqs)
    (herr : ∃ msg, validateOrderItem now cat req = Except.error msg) :
    ∃ msg, reqs.mapM (validateOrderItem now cat) = Except.error msg := by
  induction reqs with
  | nil => cases hmem
  | cons x xs ih =>
    rw [List.mapM_cons]
    cases hx : validateOrderItem now cat x with
    | error m => exact ⟨m, rfl⟩
    | ok v =>
      rcases List.mem_cons.mp hmem with rfl | hmem2
      · obtain ⟨m, hm⟩ := herr
        rw [hx] at hm
        cases hm
      · obtain ⟨m, hm⟩ := ih hmem2
        refine ⟨m, ?_⟩
        show (List.mapM (validateOrderItem now cat) xs).bind
            (fun l => pure (v :: l)) = Except.error m
        rw [hm]
        rfl

/-- C7: the validator rejects every selector combination illegal for the
pricing shape (any selector on `simple`; missing tier or extra day on
`tiered`; missing day or extra tier on `day_based`; a `tier_and_day` line
missing either id — in particular one carrying only a tier id), rejects
unknown child ids and quantities exceeding the type's or the resolved child
unit's availability, and a rejected line aborts order creation. -/
theorem purchase_line_validation_rejections (now : Int) (cat : Catalog)
    (req : OrderItemRequest) (tt : TicketType)
    (htt : cat.findTicketType req.ticketTypeId = some tt) :
    (tt.pricingType = PricingType.simple →
        (req.ticketTierId.isSome || req.dayPassId.isSome) = true → rejects now cat req)
    ∧ (tt.pricingType = PricingType.tiered → req.ticketTierId = none →
        rejects now cat req)
    ∧ (tt.pricingType = PricingType.tiered → req.dayPassId.isSome = true →
        rejects now cat req)
    ∧ (tt.pricingType = PricingType.dayBased → req.dayPassId = none →
        rejects now cat req)
    ∧ (tt.pricingType = PricingType.dayBased → req.ticketTierId.isSome = true →
        rejects now cat req)
    ∧ (tt.pricingType = PricingType.tierAndDay → req.dayPassId = none →
        rejects now cat req)
    ∧ (tt.pricingType = PricingType.tierAndDay → req.ticketTierId = none →
        rejects now cat req)
    ∧ (∀ i, tt.pricingType = PricingType.tiered → req.ticketTierId = some i →
        cat.findTier tt.id i = none → rejects now cat req)
    ∧ (∀ j, tt.pricingType = PricingType.dayBased → req.dayPassId = some j →
        cat.findDayPass tt.id j = none → rejects now cat req)
    ∧ ((req.quantity : Int) > tt.availableQuantity → rejects now cat req)
    ∧ (∀ i tier, tt.pricingType = PricingType.tiered → req.ticketTierId = some i →
        cat.findTier tt.id i = some tier →
        (req.quantity : Int) > tier.availableQuantity → rejects now cat req)
    ∧ (∀ j dp, tt.pricingType = PricingType.dayBased → req.dayPassId = some j →
        cat.findDayPass tt.id j = some dp →
        (req.quantity : Int) > dp.availableQuantity → rejects now cat req)
    ∧ (∀ i tier j, tt.pricingType = PricingType.tierAndDay → req.ticketTierId = some i →
        req.dayPassId = some j → cat.findTier tt.id i = some tier →
        (req.quantity : Int) > tier.availableQuantity → rejects now cat req)
    ∧ (∀ i tier j dp, tt.pricingType = PricingType.tierAndDay →
        req.ticketTierId = some i → req.dayPassId = some j →
        cat.findTier tt.id i = some tier → cat.findDayPass tt.id j = some dp →
        ¬ ((req.quantity : Int) > tier.availableQuantity) →
        (req.quantity : Int) > dp.availableQuantity → rejects now cat req)
    ∧ (rejects now cat req → ∀ feePct oid (reqs : List OrderItemRequest), req ∈ reqs →
        ∃ msg, createOrder now feePct cat oid reqs = Except.error msg) := by
  refine ⟨?_, ?_, ?_, ?_, ?_, ?_, ?_, ?_, ?_, ?_, ?_, ?_, ?_, ?_, ?_⟩
  · intro hshape hsel
    by_cases hsale : tt.isOnSale now = true
    · by_cases havail : (req.quantity : Int) > tt.availableQuantity
      · exact ⟨errTypeAvailability, validate_typeAvail now cat req tt htt hsale havail⟩
      · refine ⟨errNoTiersOrDayPasses, ?_⟩
        rw [validate_shape_branch now cat req tt htt hsale havail]
        unfold validateShape
        simp [hshape, hsel]
    · exact ⟨errNotOnSale, validate_notOnSale now cat req tt htt hsale⟩
  · intro hshape hti
    by_cases hsale : tt.isOnSale now = true
    · by_cases havail : (req.quantity : Int) > tt.availableQuantity
      · exact ⟨errTypeAvailability, validate_typeAvail now cat req tt htt hsale havail⟩
      · refine ⟨errTierRequired, ?_⟩
        rw [validate_shape_branch now cat req tt htt hsale havail]
        unfold validateShape
        simp [hshape, hti]
    · exact ⟨errNotOnSale, validate_notOnSale now cat req tt htt hsale⟩
  · intro hshape hdp
    by_cases hsale : tt.isOnSale now = true
    · by_cases havail : (req.quantity : Int) > tt.availableQuantity
      · exact ⟨errTypeAvailability, validate_typeAvail now cat req tt htt hsale havail⟩
      · cases hti2 : req.ticketTierId with
        | none =>
          refine ⟨errTierRequired, ?_⟩
          rw [validate_shape_branch now cat req tt htt hsale havail]
          unfold validateShape
          simp [hshape, hti2]
        | some i =>
          refine ⟨errNoDayPasses, ?_⟩
          rw [validate_shape_branch now cat req tt htt hsale havail]
          unfold validateShape
          simp [hshape, hti2, hdp]
    · exact ⟨errNotOnSale, validate_notOnSale now cat req tt htt hsale⟩
  · intro hshape hdp
    by_cases hsale : tt.isOnSale now = true
    · by_cases havail : (req.quantity : Int) > tt.availableQuantity
      · exact ⟨errTypeAvailability, validate_typeAvail now cat req tt htt hsale havail⟩
      · refine ⟨errDayPassRequired, ?_⟩
        rw [validate_shape_branch now cat req tt htt hsale havail]
        unfold validateShape
        simp [hshape, hdp]
    · exact ⟨errNotOnSale, validate_notOnSale now cat req tt htt hsale⟩
  · intro hshape hts
    by_cases hsale : tt.isOnSale now = true
    · by_cases havail : (req.quantity : Int) > tt.availableQuantity
      · exact ⟨errTypeAvailability, validate_typeAvail now cat req tt htt hsale havail⟩
      · cases hdp2 : req.dayPassId with
        | none =>
          refine ⟨errDayPassRequired, ?_⟩
          rw [validate_shape_branch now cat req tt htt hsale havail]
          unfold validateShape
          simp [hshape, hdp2]
        | some j =>
          refine ⟨errNoTiers, ?_⟩
          rw [validate_shape_branch now cat req tt htt hsale havail]
          unfold validateShape
          simp [hshape, hdp2, hts]
    · exact ⟨errNotOnSale, validate_notOnSale now cat req tt htt hsale⟩
  · intro hshape hdpn
    by_cases hsale : tt.isOnSale now = true
    · by_cases havail : (req.quantity : Int) > tt.availableQuantity
      · exact ⟨errTypeAvailability, validate_typeAvail now cat req tt htt hsale havail⟩
      · cases hti2 : req.ticketTierId with
        | none =>
          refine ⟨errBothRequired, ?_⟩
          rw [validate_shape_branch now cat req tt htt hsale havail]
          unfold validateShape
          simp [hshape, hti2]
        | some i =>
          refine ⟨errBothRequired, ?_⟩
          rw [validate_shape_branch now cat req tt htt hsale havail]
          unfold validateShape
          simp [hshape, hti2, hdpn]
    · exact ⟨errNotOnSale, validate_notOnSale now cat req tt htt hsale⟩
  · intro hshape htin
    by_cases hsale : tt.isOnSale now = true
    · by_cases havail : (req.quantity : Int) > tt.availableQuantity
      · exact ⟨errTypeAvailability, validate_typeAvail now cat req tt htt hsale havail⟩
      · refine ⟨errBothRequired, ?_⟩
        rw [validate_shape_branch now cat req tt htt hsale havail]
        unfold validateShape
        simp [hshape, htin]
    · exact ⟨errNotOnSale, validate_notOnSale now cat req tt htt hsale⟩
  · intro i hshape hti hfind
    by_cases hsale : tt.isOnSale now = true
    · by_cases havail : (req.quantity : Int) > tt.availableQuantity
      · exact ⟨errTypeAvailability, validate_typeAvail now cat req tt htt hsale havail⟩
      · by_cases hdp2 : req.dayPassId.isSome = true
        · refine ⟨errNoDayPasses, ?_⟩
          rw [validate_shape_branch now cat req tt htt hsale havail]
          unfold validateShape
          simp [hshape, hti, hdp2]
        · refine ⟨errInvalidTier, ?_⟩
          rw [validate_shape_branch now cat req tt htt hsale havail]
          unfold validateShape
          simp [hshape, hti, hdp2, hfind]
    · exact ⟨errNotOnSale, validate_notOnSale now cat req tt htt hsale⟩
  · intro j hshape hdj hfind
    by_cases hsale : tt.isOnSale now = true
    · by_cases havail : (req.quantity : Int) > tt.availableQuantity
      · exact ⟨errTypeAvailability, validate_typeAvail now cat req tt htt hsale havail⟩
      · by_cases hts2 : req.ticketTierId.isSome = true
        · refine ⟨errNoTiers, ?_⟩
          rw [validate_shape_branch now cat req tt htt hsale havail]
          unfold validateShape
          simp [hshape, hdj, hts2]
        · refine ⟨errInvalidDayPass, ?_⟩
          rw [validate_shape_branch now cat req tt htt hsale havail]
          unfold validateShape
          simp [hshape, hdj, hts2, hfind]
    · exact ⟨errNotOnSale, validate_notOnSale now cat req tt htt hsale⟩
  · intro havail
    by_cases hsale : tt.isOnSale now = true
    · exact ⟨errTypeAvailability, validate_typeAvail now cat req tt htt hsale havail⟩
    · exact ⟨errNotOnSale, validate_notOnSale now cat req tt htt hsale⟩
  · intro i tier hshape hti hfind htav
    by_cases hsale : tt.isOnSale now = true
    · by_cases havail : (req.quantity : Int) > tt.availableQuantity
      · exact ⟨errTypeAvailability, validate_typeAvail now cat req tt htt hsale havail⟩
      · by_cases hdp2 : req.dayPassId.isSome = true
        · refine ⟨errNoDayPasses, ?_⟩
          rw [validate_shape_branch now cat req tt htt hsale havail]
          unfold validateShape
          simp [hshape, hti, hdp2]
        · refine ⟨errTierAvailability, ?_⟩
          rw [validate_shape_branch now cat req tt htt hsale havail]
          unfold validateShape
          simp [hshape, hti, hdp2, hfind, htav]
    · exact ⟨errNotOnSale, validate_notOnSale now cat req tt htt hsale⟩
  · intro j dp hshape hdj hfind hdav
    by_cases hsale : tt.isOnSale now = true
    · by_cases havail : (req.quantity : Int) > tt.availableQuantity
      · exact ⟨errTypeAvailability, validate_typeAvail now cat req tt htt hsale havail⟩
      · by_cases hts2 : req.ticketTierId.isSome = true
        · refine ⟨errNoTiers, ?_⟩
          rw [validate_shape_branch now cat req tt htt hsale havail]
          unfold validateShape
          simp [hshape, hdj, hts2]
        · refine ⟨errDayAvailability, ?_⟩
          rw [validate_shape_branch now cat req tt htt hsale havail]
          unfold validateShape
          simp [hshape, hdj, hts2, hfind, hdav]
    · exact ⟨errNotOnSale, validate_notOnSale now cat req tt htt hsale⟩
  · intro i tier j hshape hti hdj hfind htav
    by_cases hsale : tt.isOnSale now = true
    · by_cases havail : (req.quantity : Int) > tt.availableQuantity
      · exact ⟨errTypeAvailability, validate_typeAvail now cat req tt htt hsale havail⟩
      · cases hfdp2 : cat.findDayPass tt.id j with
        | none =>
          refine ⟨errInvalidDayPass, ?_⟩
          rw [validate_shape_branch now cat req tt htt hsale havail]
          unfold validateShape
          simp [hshape, hti, hdj, hfind, hfdp2]
        | some dp =>
          refine ⟨errTierAvailability, ?_⟩
          rw [validate_shape_branch now cat req tt htt hsale havail]
          unfold validateShape
          simp [hshape, hti, hdj, hfind, hfdp2, htav]
    · exact ⟨errNotOnSale, validate_notOnSale now cat req tt htt hsale⟩
  · intro i tier j dp hshape hti hdj hftr hfdp htavn hdav
    by_cases hsale : tt.isOnSale now = true
    · by_cases havail : (req.quantity : Int) > tt.availableQuantity
      · exact ⟨errTypeAvailability, validate_typeAvail now cat req tt htt hsale havail⟩
      · refine ⟨errDayAvailability, ?_⟩
        rw [validate_shape_branch now cat req tt htt hsale havail]
        unfold validateShape
        simp [hshape, hti, hdj, hftr, hfdp, htavn, hdav]
    · exact ⟨errNotOnSale, validate_notOnSale now cat req tt htt hsale⟩
  · intro hrej feePct oid reqs hmem
    obtain ⟨m, hm⟩ := mapM_validate_error now cat reqs req hmem hrej
    refine ⟨m, ?_⟩
    unfold createOrder
    rw [hm]
    rfl

/-- Witness for C7 on the sample catalog: a `tier_and_day` line with only a
tier id, a `simple` line carrying a tier id, and a `tiered` line missing its
tier id are all rejected, and the rejected line aborts order creation. -/
theorem purchase_line_validation_rejections_witness :
    sampleCatalog.findTicketType 1 = some comboType
    ∧ rejects 100 sampleCatalog
        { ticketTypeId := 1, ticketTierId := some 11, dayPassId := none, quantity := 1 }
    ∧ rejects 100 sampleCatalog
        { ticketTypeId := 2, ticketTierId := some 12, dayPassId := none, quantity := 1 }
    ∧ rejects 100 sampleCatalog
        { ticketTypeId := 3, ticketTierId := none, dayPassId := none, quantity := 1 }
    ∧ ∃ msg, createOrder 100 5 sampleCatalog 9
        [{ ticketTypeId := 1, ticketTierId := some 11, dayPassId := none, quantity := 1 }]
        = Except.error msg := by
  have h1 := purchase_line_validation_rejections 100 sampleCatalog
    { ticketTypeId := 1, ticketTierId := some 11, dayPassId := none, quantity := 1 }
    comboType rfl
  have h2 := purchase_line_validation_rejections 100 sampleCatalog
    { ticketTypeId := 2, ticketTierId := some 12, dayPassId := none, quantity := 1 }
    simpleType rfl
  have h3 := purchase_line_validation_rejections 100 sampleCatalog
    { ticketTypeId := 3, ticketTierId := none, dayPassId := none, quantity := 1 }
    tieredType rfl
  have hr1 : rejects 100 sampleCatalog
      { ticketTypeId := 1, ticketTierId := some 11, dayPassId := none, quantity := 1 } :=
    h1.2.2.2.2.2.1 rfl rfl
  refine ⟨rfl, hr1, h2.1 rfl rfl, h3.2.1 rfl rfl, ?_⟩
  exact h1.2.2.2.2.2.2.2.2.2.2.2.2.2.2 hr1 5 9 _ (by simp)

/-- Counterexample for C8: at subtotal $0.10 with the default 5% fee the
exact fee is half a cent; the code's `Decimal.quantize` default rounds
half-to-even giving $0.00, while round-half-up would give $0.01. -/
theorem service_fee_rounding_cex :
    calculateServiceFee 5 10 = 0
    ∧ roundHalfUpDiv (10 * 5) 100 = 1
    ∧ (0 : Nat) ≠ 1
    ∧ 2 * ((10 * 5) % 100) = 100 := by
  decide

/-- C8 (amended): the service fee is the configured percentage of the
subtotal rounded to the nearest cent with ties to even (Python `Decimal`
default), agreeing with round-half-up except exactly at ties, where the
even cent is chosen; the payment service's total is
`max(0, subtotal + fee − discount)`, while `Order.calculate_totals` stores
`subtotal + fee − discount` with no flooring. -/
theorem service_fee_and_total (feePct subtotal : Nat) (discount : Int)
    (items : List OrderItem) (o : Order) :
    (2 * ((subtotal * feePct) % 100) ≠ 100 →
        calculateServiceFee feePct subtotal = roundHalfUpDiv (subtotal * feePct) 100)
    ∧ (2 * ((subtotal * feePct) % 100) = 100 →
        calculateServiceFee feePct subtotal % 2 = 0
          ∧ (calculateServiceFee feePct subtotal = subtotal * feePct / 100
              ∨ calculateServiceFee feePct subtotal = subtotal * feePct / 100 + 1))
    ∧ (0 : Int) ≤ calculateTotalAmount feePct (subtotal : Int) discount
    ∧ (discount ≤ (subtotal : Int) + (calculateServiceFee feePct subtotal : Int) →
        calculateTotalAmount feePct (subtotal : Int) discount
          = (subtotal : Int) + (calculateServiceFee feePct subtotal : Int) - discount)
    ∧ ((subtotal : Int) + (calculateServiceFee feePct subtotal : Int) < discount →
        calculateTotalAmount feePct (subtotal : Int) discount = 0)
    ∧ (orderCalculateTotals feePct items o).totalAmount
        = (items.map (fun it : OrderItem => it.subTotal)).sum
          + (calculateServiceFee feePct ((items.map (fun it : OrderItem => it.subTotal)).sum).toNat : Int)
          - o.discountAmount := by
  have hmod : (subtotal * feePct) % 100 < 100 := Nat.mod_lt _ (by omega)
  refine ⟨?_, ?_, ?_, ?_, ?_, rfl⟩
  · intro hne
    unfold calculateServiceFee roundHalfEvenDiv roundHalfUpDiv
    by_cases hlt : 2 * ((subtotal * feePct) % 100) < 100
    · rw [if_pos hlt, if_neg (by omega)]
    · rw [if_neg hlt, if_pos (by omega), if_pos (by omega)]
  · intro heq
    unfold calculateServiceFee roundHalfEvenDiv
    rw [if_neg (by omega), if_neg (by omega)]
    by_cases hq : (subtotal * feePct) / 100 % 2 = 0
    · rw [if_pos hq]
      exact ⟨hq, Or.inl rfl⟩
    · rw [if_neg hq]
      refine ⟨by omega, Or.inr rfl⟩
  · unfold calculateTotalAmount
    have hts : ((subtotal : Int)).toNat = subtotal := Int.toNat_natCast subtotal
    rw [hts]
    exact le_max_left 0 _
  · intro hle
    unfold calculateTotalAmount
    have hts : ((subtotal : Int)).toNat = subtotal := Int.toNat_natCast subtotal
    rw [hts]
    omega
  · intro hlt
    unfold calculateTotalAmount
    have hts : ((subtotal : Int)).toNat = subtotal := Int.toNat_natCast subtotal
    rw [hts]
    omega

/-- Witness for C8 (amended): a non-tie subtotal agrees with round-half-up,
the tie subtotal $0.10 rounds to the even cent $0.00, and the totals hold on
the sample order. -/
theorem service_fee_and_total_witness :
    2 * ((7 * 5) % 100) ≠ 100
    ∧ calculateServiceFee 5 7 = roundHalfUpDiv (7 * 5) 100
    ∧ 2 * ((10 * 5) % 100) = 100
    ∧ calculateServiceFee 5 10 % 2 = 0
    ∧ (0 : Int) ≤ calculateTotalAmount 5 8000 0
    ∧ ((0 : Int) ≤ (8000 : Int) + (calculateServiceFee 5 8000 : Int) →
        calculateTotalAmount 5 (8000 : Int) 0
          = (8000 : Int) + (calculateServiceFee 5 8000 : Int) - 0)
    ∧ (orderCalculateTotals 5 [sampleItem] sampleOrder).totalAmount
        = ([sampleItem].map (fun it : OrderItem => it.subTotal)).sum
          + (calculateServiceFee 5 (([sampleItem].map (fun it : OrderItem => it.subTotal)).sum).toNat : Int)
          - sampleOrder.discountAmount := by
  have h7 := service_fee_and_total 5 7 0 ([] : List OrderItem) sampleOrder
  have h10 := service_fee_and_total 5 10 0 ([] : List OrderItem) sampleOrder
  have h8000 := service_fee_and_total 5 8000 0 [sampleItem] sampleOrder
  exact ⟨by decide, h7.1 (by decide), by decide, (h10.2.1 (by decide)).1,
         h8000.2.2.1, fun h => h8000.2.2.2.1 h, h8000.2.2.2.2.2⟩

theorem tierPrice_update (pk : Nat) (p : Int) (l : List TicketTier)
    (h : hasTier l pk = true) :
    tierPrice (l.map (fun t => if t.id == pk then { t with price := p } else t)) pk
      = some p := by
  induction l with
  | nil => cases h
  | cons t rest ih =>
    by_cases ht : t.id = pk
    · simp [tierPrice, ht]
    · simp only [hasTier] at h
      rw [if_neg ht] at h
      simp only [List.map_cons]
      rw [(by simp [ht] : (t.id == pk) = false)]
      simp only [Bool.false_eq_true, if_false, tierPrice]
      rw [if_neg ht]
      exact ih h

/-- C9: an admin edit of a tier's catalog price changes the catalog row but
leaves every stored OrderItem (its frozen `unit_price`, `quantity` and name
snapshots) and the order untouched; and OrderItem creation freezes the
validated price, the quantity and the name snapshots at creation time. -/
theorem price_freezing (w : World) (pk : Nat) (p : Int) (oid iid : Nat)
    (v : ValidatedItem) (hpk : hasTier w.catalog.tiers pk = true) :
    (worldUpdateTierPrice pk p w).items = w.items
    ∧ (worldUpdateTierPrice pk p w).order = w.order
    ∧ (worldUpdateTierPrice pk p w).tickets = w.tickets
    ∧ tierPrice (worldUpdateTierPrice pk p w).catalog.tiers pk = some p
    ∧ (∀ it ∈ w.items, it ∈ (worldUpdateTierPrice pk p w).items)
    ∧ (mkOrderItem oid iid v).unitPrice = v.unitPrice.getD 0
    ∧ (mkOrderItem oid iid v).quantity = v.quantity
    ∧ (mkOrderItem oid iid v).subTotal = (v.quantity : Int) * v.unitPrice.getD 0
    ∧ (mkOrderItem oid iid v).ticketName = v.ticketType.name := by
  refine ⟨rfl, rfl, rfl, ?_, fun it h => h, rfl, rfl, rfl, rfl⟩
  exact tierPrice_update pk p w.catalog.tiers hpk

/-- Witness for C9: repricing the Gold tier to 99.99 in the sample world
changes the catalog price but not the stored order item. -/
theorem price_freezing_witness :
    hasTier sampleWorld.catalog.tiers 12 = true
    ∧ (worldUpdateTierPrice 12 9999 sampleWorld).items = sampleWorld.items
    ∧ tierPrice (worldUpdateTierPrice 12 9999 sampleWorld).catalog.tiers 12 = some 9999
    ∧ (mkOrderItem 7 70 { ticketType := tieredType, tier := some goldTier, dayPass := none,
                          quantity := 2, unitPrice := some 4000 }).unitPrice = 4000 := by
  have h := price_freezing sampleWorld 12 9999 7 70
    { ticketType := tieredType, tier := some goldTier, dayPass := none,
      quantity := 2, unitPrice := some 4000 } (by decide)
  exact ⟨by decide, h.1, h.2.2.2.1, h.2.2.2.2.2.1⟩
